import Mathlib

/-!
# Verification of the Greep-Market analytics core

Shallow embedding of the timezone-aware sales/expense analytics engine of the
Greep-Market backend (the `AnalyticsService` variant that resolves one primary
period, the `ExpenseService` time-series logic, and the `timezone` utilities),
together with proofs of the specified properties.

Modelling conventions:

* JS `number` values that hold money amounts are modelled as `ℚ` (ideal
  arithmetic; the claims under verification are about control flow, bucketing
  and rounding, not floating-point error).
* A JS `Date` is modelled by its civil (calendar) fields as observed in the
  server's local timezone (`DateTime` below), because every `Date` the code
  constructs is built from civil components (`new Date(y, m, d, ...)`) and every
  consumption is via civil getters, `getTime` differences, or comparisons.  The
  absolute instant of a `DateTime` is recovered by `utcInstant` given the
  server's UTC offset.
* Timezones are modelled as fixed UTC offsets in minutes (no DST).  The series
  embeddings are stated for a deployment in which the server's offset equals the
  store's offset, which is the situation the bucket-filling code assumes (it
  mixes server-local civil cursors with store-timezone formatting).
* MongoDB aggregation pipelines (`$match`/`$group`/`$sort`/`$project`) are
  modelled as list filtering, grouping over the deduplicated sorted key set, and
  summation.
-/

namespace GreepMarket

/-! ## Calendar arithmetic -/

/-- Gregorian leap-year test (as used by `Date` semantics in JS). -/
def isLeapYear (y : Nat) : Bool :=
  (y % 4 == 0 && y % 100 != 0) || (y % 400 == 0)

/-- Number of days in month `m` (1–12) of year `y`. -/
def daysInMonth (y m : Nat) : Nat :=
  if m = 2 then (if isLeapYear y then 29 else 28)
  else if m = 4 ∨ m = 6 ∨ m = 9 ∨ m = 11 then 30
  else 31

/-- Number of days in year `y`. -/
def daysInYear (y : Nat) : Nat := if isLeapYear y then 366 else 365

/-- Days in all years strictly before year `y` (proleptic Gregorian, from year 0). -/
def daysBeforeYear : Nat → Nat
  | 0 => 0
  | y + 1 => daysBeforeYear y + daysInYear y

/-- Days in the months of year `y` strictly before month `m`. -/
def daysBeforeMonth (y : Nat) : Nat → Nat
  | 0 => 0
  | 1 => 0
  | m + 1 => daysBeforeMonth y m + daysInMonth y (m + 1 - 1)

theorem daysInMonth_pos (y m : Nat) : 0 < daysInMonth y m := by
  unfold daysInMonth
  split_ifs <;> omega

theorem daysInMonth_le (y m : Nat) : daysInMonth y m ≤ 31 := by
  unfold daysInMonth
  split_ifs <;> omega

theorem daysInMonth_ge (y m : Nat) : 28 ≤ daysInMonth y m := by
  unfold daysInMonth
  split_ifs <;> omega

theorem daysBeforeMonth_succ (y m : Nat) (h : 1 ≤ m) :
    daysBeforeMonth y (m + 1) = daysBeforeMonth y m + daysInMonth y m := by
  match m, h with
  | m + 1, _ => simp [daysBeforeMonth]

theorem daysBeforeMonth_year (y : Nat) :
    daysBeforeMonth y 13 = daysInYear y := by
  simp only [daysBeforeMonth, daysInMonth, daysInYear]
  cases isLeapYear y <;> norm_num

/-- A valid civil calendar date: the validity bounds are carried with the data,
mirroring the fact that a JS `Date` is always normalized. -/
structure CivilDate where
  year : Nat
  month : Nat
  day : Nat
  hm : 1 ≤ month ∧ month ≤ 12
  hd : 1 ≤ day ∧ day ≤ daysInMonth year month

/-- Day number of a civil date (days since 0000-01-01). -/
def rataDie (d : CivilDate) : Nat :=
  daysBeforeYear d.year + daysBeforeMonth d.year d.month + (d.day - 1)

/-- The next calendar day (what JS `setDate(getDate() + 1)` produces). -/
def nextDay (d : CivilDate) : CivilDate :=
  if h : d.day < daysInMonth d.year d.month then
    ⟨d.year, d.month, d.day + 1, d.hm, by omega⟩
  else if h2 : d.month < 12 then
    ⟨d.year, d.month + 1, 1, by omega, by exact ⟨le_refl 1, daysInMonth_pos _ _⟩⟩
  else
    ⟨d.year + 1, 1, 1, by omega, by exact ⟨le_refl 1, daysInMonth_pos _ _⟩⟩

/-- The previous calendar day (what JS `setDate(getDate() - 1)` produces). -/
def prevDay (d : CivilDate) : CivilDate :=
  if h : 1 < d.day then
    ⟨d.year, d.month, d.day - 1, d.hm, by have hd := d.hd; omega⟩
  else if h2 : 1 < d.month then
    ⟨d.year, d.month - 1, daysInMonth d.year (d.month - 1), by have hm := d.hm; omega,
      ⟨daysInMonth_pos _ _, le_refl _⟩⟩
  else
    ⟨d.year - 1, 12, daysInMonth (d.year - 1) 12, by omega,
      ⟨daysInMonth_pos _ _, le_refl _⟩⟩

theorem rataDie_nextDay (d : CivilDate) : rataDie (nextDay d) = rataDie d + 1 := by
  unfold nextDay rataDie
  have hd := d.hd
  have hm := d.hm
  split_ifs with h h2
  · simp only
    omega
  · simp only
    have hstep : daysBeforeMonth d.year (d.month + 1)
        = daysBeforeMonth d.year d.month + daysInMonth d.year d.month :=
      daysBeforeMonth_succ d.year d.month hm.1
    omega
  · simp only
    have h12 : d.month = 12 := by omega
    have hyr : daysBeforeYear (d.year + 1) = daysBeforeYear d.year + daysInYear d.year := rfl
    have hstep : daysBeforeMonth d.year 13
        = daysBeforeMonth d.year 12 + daysInMonth d.year 12 :=
      daysBeforeMonth_succ d.year 12 (by omega)
    have hy13 : daysBeforeMonth d.year 13 = daysInYear d.year := daysBeforeMonth_year d.year
    have h1 : daysBeforeMonth (d.year + 1) 1 = 0 := rfl
    rw [h12] at hd h ⊢
    omega

/-- Iterated `nextDay`. -/
def nextDayIter (d : CivilDate) : Nat → CivilDate
  | 0 => d
  | n + 1 => nextDayIter (nextDay d) n

theorem rataDie_nextDayIter (d : CivilDate) (n : Nat) :
    rataDie (nextDayIter d n) = rataDie d + n := by
  induction n generalizing d with
  | zero => rfl
  | succ n ih =>
    simp only [nextDayIter]
    rw [ih, rataDie_nextDay]
    omega

/-- Iterated `prevDay` (JS `setDate(getDate() - n)`). -/
def prevDayIter (d : CivilDate) : Nat → CivilDate
  | 0 => d
  | n + 1 => prevDayIter (prevDay d) n

/-- Normalize a (year, month, day) triple with a possibly overflowing day of
month, the way the JS `Date` constructor does (`new Date(2025, 3, 31)` is
May 1).  With `day ≤ 31` the overflow never crosses more than one month. -/
def mkNorm (y m day : Nat) (hm : 1 ≤ m ∧ m ≤ 12) (hd31 : 1 ≤ day ∧ day ≤ 31) : CivilDate :=
  if h : day ≤ daysInMonth y m then ⟨y, m, day, hm, ⟨hd31.1, h⟩⟩
  else if h2 : m < 12 then
    ⟨y, m + 1, day - daysInMonth y m, by omega,
      by have g1 := daysInMonth_ge y m; have g2 := daysInMonth_ge y (m + 1); omega⟩
  else
    ⟨y + 1, 1, day - daysInMonth y m, by omega,
      by
        have g1 := daysInMonth_ge y m
        have h31 : daysInMonth (y + 1) 1 = 31 := rfl
        omega⟩

/-- First day of the month of `d`. -/
def firstOfMonth (d : CivilDate) : CivilDate :=
  ⟨d.year, d.month, 1, d.hm, ⟨le_refl 1, daysInMonth_pos _ _⟩⟩

/-- Last day of the month of `d` (JS `new Date(y, m + 1, 0)`). -/
def lastOfMonth (d : CivilDate) : CivilDate :=
  ⟨d.year, d.month, daysInMonth d.year d.month, d.hm, ⟨daysInMonth_pos _ _, le_refl _⟩⟩

/-- Linear month index (year 0 January = 0). -/
def monthIdx (d : CivilDate) : Nat := d.year * 12 + (d.month - 1)

/-- JS `setMonth` month arithmetic: move `k` months (normalizing the day of
month as the `Date` constructor does). -/
def jsAddMonths (d : CivilDate) (k : Int) : CivilDate :=
  let idx : Int := (d.year : Int) * 12 + ((d.month : Int) - 1) + k
  let y : Nat := (idx.fdiv 12).toNat
  let m : Nat := (idx % 12).toNat + 1
  mkNorm y m d.day
    (by
      have h0 : 0 ≤ idx % 12 := Int.emod_nonneg idx (by omega)
      have h1 : idx % 12 < 12 := Int.emod_lt_of_pos idx (by omega)
      omega)
    ⟨d.hd.1, le_trans d.hd.2 (daysInMonth_le _ _)⟩

/-! ## JS `Date` values and the timezone utilities (`src/utils/timezone.ts`)

A `DateTime` is a JS `Date` described by its civil fields in the server's local
timezone.  `timeValue` is the server-local millisecond count since 0000-01-01
(an epoch shift away from `getTime()`, which only ever enters the source code
through differences and comparisons, where the shift cancels); `utcInstant`
recovers the true instant given the server's UTC offset. -/

structure DateTime where
  date : CivilDate
  hour : Nat
  minute : Nat
  second : Nat
  ms : Nat

/-- Milliseconds since local midnight. -/
def todMs (t : DateTime) : Nat :=
  ((t.hour * 60 + t.minute) * 60 + t.second) * 1000 + t.ms

/-- Server-local milliseconds since 0000-01-01T00:00 (an affine shift of JS
`getTime()`). -/
def timeValue (t : DateTime) : Nat := rataDie t.date * 86400000 + todMs t

/-- The absolute instant, given the server's UTC offset in minutes. -/
def utcInstant (t : DateTime) (serverOffsetMin : Int) : Int :=
  (timeValue t : Int) - serverOffsetMin * 60000

def midnight (d : CivilDate) : DateTime := ⟨d, 0, 0, 0, 0⟩

def endOfDay (d : CivilDate) : DateTime := ⟨d, 23, 59, 59, 999⟩

/-- `timezone.ts` `DateRange { start, end }`. -/
structure DateRange where
  start : DateTime
  end_ : DateTime

/-- `getTodayRange(timezone)`: the source computes `now.getFullYear()` etc. on
the server-local `Date` and never reads its `timezone` parameter, so the model
keeps the parameter and ignores it identically. -/
def getTodayRange (timezone : Int) (now : DateTime) : DateRange :=
  { start := midnight now.date, end_ := endOfDay now.date }

/-- `getThisMonthRange(timezone)` (also ignores `timezone` in the source:
`new Date(now.getFullYear(), now.getMonth(), 1)` is server-local). -/
def getThisMonthRange (timezone : Int) (now : DateTime) : DateRange :=
  { start := midnight (firstOfMonth now.date), end_ := endOfDay (lastOfMonth now.date) }

/-- `getMonthYearRange(month, year, timezone)`: throws on an out-of-range month
or year, else the full month, first day 00:00:00.000 to last day 23:59:59.999. -/
def getMonthYearRange (month year : Nat) (timezone : Int) : Except String DateRange :=
  if h1 : month < 1 ∨ 12 < month then .error "Invalid month"
  else if h2 : year < 1900 ∨ 2100 < year then .error "Invalid year"
  else
    .ok { start := midnight ⟨year, month, 1, by omega, ⟨le_refl 1, daysInMonth_pos _ _⟩⟩,
          end_ := endOfDay ⟨year, month, daysInMonth year month, by omega,
            ⟨daysInMonth_pos _ _, le_refl _⟩⟩ }

/-- `getLastNDaysRange(days, timezone)` (server-local `setDate(getDate() - days)`,
then midnight; end of today). -/
def getLastNDaysRange (days : Nat) (timezone : Int) (now : DateTime) : DateRange :=
  { start := midnight (prevDayIter now.date days), end_ := endOfDay now.date }

/-- Left-pad a numeral with zeros to width 2 (`String.padStart(2, '0')`). -/
def pad2 (n : Nat) : String :=
  if n < 10 then "0" ++ toString n else toString n

/-- Left-pad a numeral with zeros to width 4 (`%Y` / `en-CA` year field). -/
def pad4 (n : Nat) : String :=
  if n < 10 then "000" ++ toString n
  else if n < 100 then "00" ++ toString n
  else if n < 1000 then "0" ++ toString n
  else toString n

/-- The canonical `YYYY-MM-DD` key of a civil day. -/
def dateKeyFmt (d : CivilDate) : String :=
  pad4 d.year ++ "-" ++ pad2 d.month ++ "-" ++ pad2 d.day

/-- The canonical `YYYY-MM` key of a civil month. -/
def monthKeyFmt (d : CivilDate) : String :=
  pad4 d.year ++ "-" ++ pad2 d.month

/-- `formatDateForTimezone(date, timezone)` (`en-CA` = `YYYY-MM-DD`).  Under the
single-offset deployment modelled here (server offset = store offset) the
store-timezone rendering of a server-civil `Date` is its own civil date. -/
def formatDateForTimezone (date : DateTime) (timezone : Int) : String :=
  dateKeyFmt date.date

/-- Mongo `$dateToString` with format `%Y-%m-%d` in the store timezone, on a
stored instant; equal to the civil date under the single-offset model. -/
def mongoDayKey (t : DateTime) : String := dateKeyFmt t.date

/-- Mongo `$dateToString` with format `%Y-%m` in the store timezone. -/
def mongoMonthKey (t : DateTime) : String := monthKeyFmt t.date

/-! ## JS string primitives

`trim` and `toLowerCase` as the analytics code applies them to payment-method
keys (whitespace subset: space, tab, CR, LF; case mapping on the basic latin
range, which is all the stored payment-method strings use). -/

theorem char_toNat_ofNat_of_lt {n : Nat} (h : n < 55296) : (Char.ofNat n).toNat = n := by
  have hv : n.isValidChar := Or.inl h
  rw [Char.ofNat, dif_pos hv]
  simp [Char.ofNatAux, Char.toNat, UInt32.toNat]

theorem toLower_eq (c : Char) :
    Char.toLower c = if c.toNat ≥ 65 ∧ c.toNat ≤ 90 then Char.ofNat (c.toNat + 32) else c :=
  rfl

theorem toLower_toLower (c : Char) : Char.toLower (Char.toLower c) = Char.toLower c := by
  rw [toLower_eq c]
  split_ifs with h1
  · rw [toLower_eq]
    rw [char_toNat_ofNat_of_lt (show c.toNat + 32 < 55296 by omega)]
    rw [if_neg (by omega)]
  · rw [toLower_eq, if_neg h1]

theorem isWhitespace_eq_false_of_toNat {c : Char} (h32 : c.toNat ≠ 32) (h9 : c.toNat ≠ 9)
    (h13 : c.toNat ≠ 13) (h10 : c.toNat ≠ 10) : c.isWhitespace = false := by
  simp only [Char.isWhitespace, Bool.or_eq_false_iff, decide_eq_false_iff_not]
  refine ⟨⟨⟨?_, ?_⟩, ?_⟩, ?_⟩ <;> intro he
  · exact h32 (by rw [he]; rfl)
  · exact h9 (by rw [he]; rfl)
  · exact h13 (by rw [he]; rfl)
  · exact h10 (by rw [he]; rfl)

theorem isWhitespace_toLower (c : Char) :
    (Char.toLower c).isWhitespace = c.isWhitespace := by
  rw [toLower_eq]
  split_ifs with h1
  · have hn : (Char.ofNat (c.toNat + 32)).toNat = c.toNat + 32 :=
      char_toNat_ofNat_of_lt (by omega)
    have h1' : 65 ≤ c.toNat ∧ c.toNat ≤ 90 := h1
    rw [isWhitespace_eq_false_of_toNat (c := Char.ofNat (c.toNat + 32))
        (by omega) (by omega) (by omega) (by omega),
      isWhitespace_eq_false_of_toNat (by omega) (by omega) (by omega) (by omega)]
  · rfl

/-- JS `String.prototype.trim` on a character list. -/
def trimList (l : List Char) : List Char :=
  (l.dropWhile Char.isWhitespace).rdropWhile Char.isWhitespace

/-- JS `String.prototype.toLowerCase` on a character list. -/
def lowerList (l : List Char) : List Char := l.map Char.toLower

def jsTrim (s : String) : String := ⟨trimList s.data⟩

def jsToLowerCase (s : String) : String := ⟨lowerList s.data⟩

/-- `s.trim().toLowerCase()` as the payment-method normalizer applies it. -/
def jsTrimLower (s : String) : String := jsToLowerCase (jsTrim s)

theorem dropWhile_eq_self_of_prefix {α : Type} (p : α → Bool) {t x : List α}
    (hpre : t <+: x) (hx : x.dropWhile p = x) : t.dropWhile p = t := by
  cases t with
  | nil => rfl
  | cons a b =>
    obtain ⟨u, hu⟩ := hpre
    cases x with
    | nil => simp at hu
    | cons c d =>
      have hac : a = c := by
        have := hu
        simp only [List.cons_append] at this
        exact (List.cons.injEq _ _ _ _ ▸ this).1
      rw [List.dropWhile_cons] at hx
      by_cases hpc : p c = true
      · rw [if_pos hpc] at hx
        have hle := (List.dropWhile_sublist (l := d) p).length_le
        have : (c :: d).length ≤ d.length := by rw [← hx]; exact hle
        simp at this
      · rw [List.dropWhile_cons, hac, if_neg hpc]

theorem trimList_idempotent (l : List Char) : trimList (trimList l) = trimList l := by
  unfold trimList
  have hself : (l.dropWhile Char.isWhitespace).dropWhile Char.isWhitespace
      = l.dropWhile Char.isWhitespace := List.dropWhile_idempotent _ _
  have hdrop : ((l.dropWhile Char.isWhitespace).rdropWhile
      Char.isWhitespace).dropWhile Char.isWhitespace
      = (l.dropWhile Char.isWhitespace).rdropWhile Char.isWhitespace :=
    dropWhile_eq_self_of_prefix _ (List.rdropWhile_prefix _ _) hself
  rw [hdrop, List.rdropWhile_idempotent]

theorem trimList_lowerList_comm (l : List Char) :
    trimList (lowerList l) = lowerList (trimList l) := by
  unfold trimList lowerList
  have hcomp : (Char.isWhitespace ∘ Char.toLower) = Char.isWhitespace := by
    funext c
    exact isWhitespace_toLower c
  rw [List.dropWhile_map, hcomp, List.rdropWhile, List.rdropWhile,
    ← List.map_reverse, List.dropWhile_map, hcomp, List.map_reverse]

theorem lowerList_idempotent (l : List Char) : lowerList (lowerList l) = lowerList l := by
  unfold lowerList
  rw [List.map_map]
  apply List.map_congr_left
  intro c _
  exact toLower_toLower c

theorem jsTrimLower_idempotent (s : String) : jsTrimLower (jsTrimLower s) = jsTrimLower s := by
  unfold jsTrimLower jsToLowerCase jsTrim
  simp only
  rw [trimList_lowerList_comm, trimList_idempotent, lowerList_idempotent]

theorem jsToLowerCase_jsTrimLower (s : String) :
    jsToLowerCase (jsTrimLower s) = jsTrimLower s := by
  unfold jsTrimLower jsToLowerCase jsTrim
  simp only
  rw [lowerList_idempotent]

/-! ## `AnalyticsService.normalizePaymentMethod`

Identical in both service variants:
`const key = (method || 'unknown').toString().trim().toLowerCase()` followed by
the alias `switch`, with a final `return key || 'unknown'`. -/

/-- The `||` coalescing of the possibly-absent, possibly-empty method string
(`undefined` and `''` are both falsy in JS). -/
def methodOrUnknown (method : Option String) : String :=
  match method with
  | none => "unknown"
  | some s => if s = "" then "unknown" else s

/-- The alias `switch` on the trimmed, lower-cased key, including the
`default: return key || 'unknown'` arm. -/
def paymentAliasSwitch (key : String) : String :=
  if key = "card" ∨ key = "pos" ∨ key = "bank_card" ∨ key = "debit_card" ∨
      key = "credit_card" then "pos"
  else if key = "transfer" ∨ key = "naira_transfer" ∨ key = "bank_transfer" then
    "naira_transfer"
  else if key = "crypto" ∨ key = "crypto_payment" then "crypto_payment"
  else if key = "cash_on_delivery" ∨ key = "cod" ∨ key = "cash" then "cash"
  else if key = "" then "unknown" else key

def normalizePaymentMethod (method : Option String) : String :=
  paymentAliasSwitch (jsTrimLower (methodOrUnknown method))

theorem normalizePaymentMethod_ne_empty (method : Option String) :
    normalizePaymentMethod method ≠ "" := by
  unfold normalizePaymentMethod paymentAliasSwitch
  split_ifs with h1 h2 h3 h4 h5 <;> simp_all

theorem jsTrimLower_fixed_normalize (method : Option String) :
    jsTrimLower (normalizePaymentMethod method) = normalizePaymentMethod method := by
  unfold normalizePaymentMethod paymentAliasSwitch
  split_ifs with h1 h2 h3 h4 h5
  · decide
  · decide
  · decide
  · decide
  · decide
  · exact jsTrimLower_idempotent _

theorem paymentAliasSwitch_fixed (key : String) :
    paymentAliasSwitch (paymentAliasSwitch key) = paymentAliasSwitch key := by
  by_cases h1 : key = "card" ∨ key = "pos" ∨ key = "bank_card" ∨ key = "debit_card" ∨
      key = "credit_card"
  · have hk : paymentAliasSwitch key = "pos" := by rw [paymentAliasSwitch, if_pos h1]
    rw [hk]; decide
  by_cases h2 : key = "transfer" ∨ key = "naira_transfer" ∨ key = "bank_transfer"
  · have hk : paymentAliasSwitch key = "naira_transfer" := by
      rw [paymentAliasSwitch, if_neg h1, if_pos h2]
    rw [hk]; decide
  by_cases h3 : key = "crypto" ∨ key = "crypto_payment"
  · have hk : paymentAliasSwitch key = "crypto_payment" := by
      rw [paymentAliasSwitch, if_neg h1, if_neg h2, if_pos h3]
    rw [hk]; decide
  by_cases h4 : key = "cash_on_delivery" ∨ key = "cod" ∨ key = "cash"
  · have hk : paymentAliasSwitch key = "cash" := by
      rw [paymentAliasSwitch, if_neg h1, if_neg h2, if_neg h3, if_pos h4]
    rw [hk]; decide
  by_cases h5 : key = ""
  · have hk : paymentAliasSwitch key = "unknown" := by
      rw [paymentAliasSwitch, if_neg h1, if_neg h2, if_neg h3, if_neg h4, if_pos h5]
    rw [hk]; decide
  · have hk : paymentAliasSwitch key = key := by
      rw [paymentAliasSwitch, if_neg h1, if_neg h2, if_neg h3, if_neg h4, if_neg h5]
    rw [hk, hk]

theorem normalizePaymentMethod_idempotent (method : Option String) :
    normalizePaymentMethod (some (normalizePaymentMethod method))
      = normalizePaymentMethod method := by
  have hne := normalizePaymentMethod_ne_empty method
  have hfix := jsTrimLower_fixed_normalize method
  have hmu : methodOrUnknown (some (normalizePaymentMethod method))
      = normalizePaymentMethod method := by
    simp only [methodOrUnknown]
    rw [if_neg hne]
  have hstep : normalizePaymentMethod (some (normalizePaymentMethod method))
      = paymentAliasSwitch (normalizePaymentMethod method) := by
    rw [normalizePaymentMethod, hmu, hfix]
  rw [hstep, normalizePaymentMethod]
  exact paymentAliasSwitch_fixed _

/-! ## `parseDateRange` / `parseDateInTimezone` (`src/utils/timezone.ts`)

`Number(x)` on a string: the ECMAScript StringNumericLiteral grammar —
whitespace-trimmed; empty → `0`; an optionally signed decimal literal with
optional fraction and exponent, or `Infinity`, or an unsigned `0x`/`0o`/`0b`
integer literal; anything else → `NaN`.  The numeric value is kept exactly as
`mantissa · 10^exp10` (a scaled integer).  JS rounds the exact value once to
the nearest float64; for the at-most-10-character fragments this parser feeds
in (at most 8 significant digits), the exact value and its float64 rounding
lie on the same side of every integer bound the validator compares against
and truncate to the same integer, so exact arithmetic is observationally
equal here. -/

/-- A JS number as `Number(string)` can produce it: `NaN`, a signed infinity,
or the exact value `mantissa · 10^exp10`. -/
inductive JsNum where
  | nan
  | inf (neg : Bool)
  | val (mantissa : Int) (exp10 : Int)
deriving DecidableEq

def JsNum.isNaN : JsNum → Bool
  | .nan => true
  | _ => false

/-- `x < n` as JS evaluates it (`false` for `NaN`); for a finite value,
`m·10^e < n` multiplied out over the positive power of ten. -/
def JsNum.ltNat : JsNum → Nat → Bool
  | .nan, _ => false
  | .inf b, _ => b
  | .val m e, n =>
    if 0 ≤ e then decide (m * (10 : Int) ^ e.toNat < (n : Int))
    else decide (m < (n : Int) * (10 : Int) ^ (-e).toNat)

/-- `x > n` as JS evaluates it (`false` for `NaN`). -/
def JsNum.gtNat : JsNum → Nat → Bool
  | .nan, _ => false
  | .inf b, _ => !b
  | .val m e, n =>
    if 0 ≤ e then decide ((n : Int) < m * (10 : Int) ^ e.toNat)
    else decide ((n : Int) * (10 : Int) ^ (-e).toNat < m)

/-- `ToInteger`: truncation toward zero (`Int.div` is T-division); `NaN → 0`.
(`±Infinity` maps to `±∞` in JS; the only use below is behind range checks
that reject infinities, so the value returned for them is never observed.) -/
def JsNum.toInteger : JsNum → Int
  | .nan => 0
  | .inf _ => 0
  | .val m e =>
    if 0 ≤ e then m * (10 : Int) ^ e.toNat
    else m.tdiv ((10 : Int) ^ (-e).toNat)

def JsNum.neg : JsNum → JsNum
  | .nan => .nan
  | .inf b => .inf (!b)
  | .val m e => .val (-m) e

def digitsVal (l : List Char) : Nat :=
  l.foldl (fun acc c => acc * 10 + (c.toNat - 48)) 0

def isHexDigitCh (c : Char) : Bool :=
  if c.isDigit then true
  else if 'a' ≤ c ∧ c ≤ 'f' then true
  else if 'A' ≤ c ∧ c ≤ 'F' then true
  else false

def hexDigitVal (c : Char) : Nat :=
  if c.isDigit then c.toNat - 48
  else if 'a' ≤ c ∧ c ≤ 'f' then c.toNat - 87
  else c.toNat - 55

def radixVal (radix : Nat) (f : Char → Nat) (l : List Char) : Nat :=
  l.foldl (fun acc c => acc * radix + f c) 0

/-- The optional exponent suffix of a decimal literal: empty → exponent 0;
`e`/`E`, an optional sign and at least one digit; anything else rejects. -/
def parseExpPart : List Char → Option Int
  | [] => some 0
  | c :: r =>
    if c = 'e' ∨ c = 'E' then
      match r with
      | '+' :: ds =>
        if !ds.isEmpty && ds.all Char.isDigit then some ((digitsVal ds : Int)) else none
      | '-' :: ds =>
        if !ds.isEmpty && ds.all Char.isDigit then some (-(digitsVal ds : Int)) else none
      | ds =>
        if !ds.isEmpty && ds.all Char.isDigit then some ((digitsVal ds : Int)) else none
    else none

/-- StrUnsignedDecimalLiteral: `Infinity`, or digits with an optional `.` and
optional exponent (at least one digit on some side of the dot). -/
def parseUnsignedDec (l : List Char) : JsNum :=
  if l = "Infinity".data then .inf false
  else
    let ip := l.takeWhile Char.isDigit
    let r1 := l.dropWhile Char.isDigit
    match r1 with
    | '.' :: r2 =>
      let fp := r2.takeWhile Char.isDigit
      let r3 := r2.dropWhile Char.isDigit
      if ip.isEmpty && fp.isEmpty then .nan
      else
        match parseExpPart r3 with
        | some ex => .val (digitsVal (ip ++ fp)) (ex - fp.length)
        | none => .nan
    | _ =>
      if ip.isEmpty then .nan
      else
        match parseExpPart r1 with
        | some ex => .val (digitsVal ip) ex
        | none => .nan

/-- `Number(s)` for a string `s`: trim; empty → `0`; an unsigned non-decimal
integer literal (`0x`/`0o`/`0b`, no sign allowed); else an optionally signed
decimal literal. -/
def jsNumber (s : String) : JsNum :=
  match trimList s.data with
  | [] => .val 0 0
  | l =>
    match l with
    | '0' :: c :: ds =>
      if (c == 'x' || c == 'X') && !ds.isEmpty && ds.all isHexDigitCh then
        .val (radixVal 16 hexDigitVal ds) 0
      else if (c == 'o' || c == 'O') && !ds.isEmpty
          && ds.all (fun c2 => decide ('0' ≤ c2 ∧ c2 ≤ '7')) then
        .val (radixVal 8 (fun c2 => c2.toNat - 48) ds) 0
      else if (c == 'b' || c == 'B') && !ds.isEmpty
          && ds.all (fun c2 => c2 == '0' || c2 == '1') then
        .val (radixVal 2 (fun c2 => c2.toNat - 48) ds) 0
      else parseUnsignedDec l
    | '+' :: r => parseUnsignedDec r
    | '-' :: r => (parseUnsignedDec r).neg
    | l2 => parseUnsignedDec l2

/-- JS `String.prototype.slice(0, 10)` applied when the string is longer than
10 characters. -/
def normalizeDateStr (s : String) : String :=
  if s.length > 10 then ⟨s.data.take 10⟩ else s

/-- JS `String.prototype.split` with a single-character separator
(structurally recursive so that concrete instances evaluate). -/
def splitOnChar (sep : Char) : List Char → List (List Char)
  | [] => [[]]
  | c :: t =>
    if c = sep then [] :: splitOnChar sep t
    else
      match splitOnChar sep t with
      | h :: r => (c :: h) :: r
      | [] => [[c]]

def jsSplit (s : String) (sep : Char) : List String :=
  (splitOnChar sep s.data).map String.mk

/-- `const [year, month, day] = safeDateStr.split('-').map(Number)`: the first
three fragments of the (re-truncated) date string coerced with `Number`; a
missing fragment destructures to `undefined`, for which `isNaN` holds, so it
is recorded as `NaN`. -/
def dateParts (s : String) : JsNum × JsNum × JsNum :=
  ((((jsSplit (normalizeDateStr s) '-')[0]?).map jsNumber).getD .nan,
   (((jsSplit (normalizeDateStr s) '-')[1]?).map jsNumber).getD .nan,
   (((jsSplit (normalizeDateStr s) '-')[2]?).map jsNumber).getD .nan)

/-- The validator of `parseDateInTimezone`:
`isNaN(year) || isNaN(month) || isNaN(day) || year < 1900 || year > 2100 ||
month < 1 || month > 12 || day < 1 || day > 31`. -/
def datePartsBad (p : JsNum × JsNum × JsNum) : Bool :=
  p.1.isNaN || p.2.1.isNaN || p.2.2.isNaN ||
    p.1.ltNat 1900 || p.1.gtNat 2100 ||
    p.2.1.ltNat 1 || p.2.1.gtNat 12 ||
    p.2.2.ltNat 1 || p.2.2.gtNat 31

/-- A date string the parser rejects: a missing or `NaN` fragment, or an
out-of-range year, month or day. -/
def dateStrMalformed (s : String) : Bool := datePartsBad (dateParts s)

theorem JsNum.toInteger_bounds (x : JsNum) (a b : Nat) (hn : x.isNaN = false)
    (hl : x.ltNat a = false) (hg : x.gtNat b = false) :
    (a : Int) ≤ x.toInteger ∧ x.toInteger ≤ (b : Int) := by
  cases x with
  | nan => simp [JsNum.isNaN] at hn
  | inf bneg =>
    cases bneg with
    | false => simp [JsNum.gtNat] at hg
    | true => simp [JsNum.ltNat] at hl
  | val m e =>
    simp only [JsNum.ltNat, JsNum.gtNat, JsNum.toInteger] at hl hg ⊢
    by_cases he : (0 : Int) ≤ e
    · rw [if_pos he] at hl hg ⊢
      simp only [decide_eq_false_iff_not, not_lt] at hl hg
      exact ⟨hl, hg⟩
    · rw [if_neg he] at hl hg ⊢
      simp only [decide_eq_false_iff_not, not_lt] at hl hg
      have hpow : (0 : Int) < 10 ^ (-e).toNat := pow_pos (by norm_num) _
      have hm0 : (0 : Int) ≤ m :=
        le_trans (mul_nonneg (Int.natCast_nonneg a) (le_of_lt hpow)) hl
      rw [Int.tdiv_eq_ediv hm0 (le_of_lt hpow)]
      constructor
      · have h2 := Int.ediv_le_ediv hpow hl
        rwa [Int.mul_ediv_cancel _ (ne_of_gt hpow)] at h2
      · have h2 := Int.ediv_le_ediv hpow hg
        rwa [Int.mul_ediv_cancel _ (ne_of_gt hpow)] at h2

/-- `new Date(year, month - 1, day, …)` for validated components: each
argument is coerced with `ToInteger` (truncation toward zero); for
`month ≥ 1` the zero-based `ToInteger(month − 1)` is `ToInteger(month) − 1`,
so the 1-based model month is `ToInteger(month)`; a day past the month length
is normalized forward by `mkNorm` exactly as the `Date` constructor does. -/
def mkDateOfParts (p : JsNum × JsNum × JsNum) (hb : datePartsBad p = false) : CivilDate :=
  mkNorm p.1.toInteger.toNat p.2.1.toInteger.toNat p.2.2.toInteger.toNat
    (by
      simp only [datePartsBad, Bool.or_eq_false_iff] at hb
      obtain ⟨⟨⟨⟨⟨⟨⟨⟨h1, h2⟩, h3⟩, h4⟩, h5⟩, h6⟩, h7⟩, h8⟩, h9⟩ := hb
      have := JsNum.toInteger_bounds p.2.1 1 12 h2 h6 h7
      omega)
    (by
      simp only [datePartsBad, Bool.or_eq_false_iff] at hb
      obtain ⟨⟨⟨⟨⟨⟨⟨⟨h1, h2⟩, h3⟩, h4⟩, h5⟩, h6⟩, h7⟩, h8⟩, h9⟩ := hb
      have := JsNum.toInteger_bounds p.2.2 1 31 h3 h8 h9
      omega)

/-- `parseDateInTimezone(dateStr, timezone, boundary)`: truncate, split on `-`,
coerce the first three fragments with `Number` (`dateParts`), throw on `NaN` or
an out-of-range component, else build the (day-overflow normalizing) `Date` at
start or end of day. -/
def parseDateInTimezone (dateStr : String) (timezone : Int) (boundary : String) :
    Except String DateTime :=
  if hb : datePartsBad (dateParts dateStr) = true then
    .error "Invalid date components"
  else
    if boundary = "start" then
      .ok (midnight (mkDateOfParts (dateParts dateStr) (by simpa using hb)))
    else
      .ok (endOfDay (mkDateOfParts (dateParts dateStr) (by simpa using hb)))

/-- `parseDateRange(startDateStr, endDateStr, timezone)`: `null` when either
argument is absent or empty (falsy), both strings normalized to their first 10
characters, a throw from either parse caught and turned into `null`. -/
def parseDateRange (startDateStr endDateStr : Option String) (timezone : Int) :
    Option DateRange :=
  match startDateStr, endDateStr with
  | some s, some e =>
    if s = "" ∨ e = "" then none
    else
      let normalizedStart := normalizeDateStr s
      let normalizedEnd := normalizeDateStr e
      match parseDateInTimezone normalizedStart timezone "start",
          parseDateInTimezone normalizedEnd timezone "end" with
      | .ok a, .ok b => some ⟨a, b⟩
      | .error _, _ => none
      | _, .error _ => none
  | _, _ => none

/-! ## Ledger data model

Read-only entities the analytics core consumes.  `total_amount`,
`payment_method` and `order_source` are nullable in the ledger (the code
guards them with `$cond`/`$ifNull`/`|| 0`). -/

structure TransactionItem where
  product_id : String
  product_name : String
  quantity : ℚ
  unit_price : ℚ
  total_price : ℚ
deriving DecidableEq

structure Transaction where
  id : String
  store_id : String
  items : List TransactionItem
  total_amount : Option ℚ
  payment_method : Option String
  order_source : Option String
  status : String
  created_at : DateTime

structure Expense where
  id : String
  store_id : String
  date : DateTime
  product_name : String
  quantity : ℚ
  amount : ℚ
  category : String
  payment_method : String

structure Product where
  id : String
  store_id : String
  category : String
  price : ℚ
  stock_quantity : ℚ
  min_stock_level : ℚ
  is_active : Bool

/-- The backing document store. -/
structure StoreData where
  transactions : List Transaction
  expenses : List Expense
  products : List Product

/-- Mongo `$sum` of `total_amount` with the `$cond`-on-null guard (`null` and
missing amounts contribute `0`). -/
def amountOf (t : Transaction) : ℚ :=
  match t.total_amount with
  | some v => v
  | none => 0

def txnSum (l : List Transaction) : ℚ := (l.map amountOf).sum

def expSum (l : List Expense) : ℚ := (l.map Expense.amount).sum

/-- `created_at: { $gte: start, $lte: end }` on instants (single-offset model:
instant order is `timeValue` order). -/
def inWindow (start end_ : DateTime) (t : DateTime) : Bool :=
  timeValue start ≤ timeValue t && timeValue t ≤ timeValue end_

/-- Optional store filter (`storeId ? { store_id: storeId } : {}`). -/
def storeMatches (storeId : Option String) (sid : String) : Bool :=
  match storeId with
  | some s => sid == s
  | none => true

/-! ## Grouped aggregation (`$group` by string key, `$sort` by key) -/

/-- Insertion sort on strings (Mongo sorts group keys lexicographically under
`{ $sort: { key: 1 } }`). -/
def insertSorted (x : String) : List String → List String
  | [] => [x]
  | a :: t => if x ≤ a then x :: a :: t else a :: insertSorted x t

def sortStrings (l : List String) : List String := l.foldr insertSorted []

/-- The distinct keys of an aggregation, in ascending order. -/
def sortedDedupKeys (l : List String) : List String := sortStrings l.dedup

theorem mem_insertSorted (x k : String) (l : List String) :
    k ∈ insertSorted x l ↔ k = x ∨ k ∈ l := by
  induction l with
  | nil => simp [insertSorted]
  | cons a t ih =>
    simp only [insertSorted]
    split_ifs with h
    · simp [List.mem_cons]
    · simp only [List.mem_cons, ih]
      tauto

theorem mem_sortStrings (k : String) (l : List String) :
    k ∈ sortStrings l ↔ k ∈ l := by
  induction l with
  | nil => simp [sortStrings]
  | cons a t ih =>
    simp only [sortStrings, List.foldr_cons] at *
    rw [mem_insertSorted]
    simp [ih]

theorem mem_sortedDedupKeys (k : String) (l : List String) :
    k ∈ sortedDedupKeys l ↔ k ∈ l := by
  rw [sortedDedupKeys, mem_sortStrings, List.mem_dedup]

/-- `$group`: one output document per distinct key, carrying the matching
input documents. -/
def groupByKey {α : Type} (key : α → String) (l : List α) : List (String × List α) :=
  (sortedDedupKeys (l.map key)).map fun k => (k, l.filter (fun a => key a == k))

/-- The generic `map[key] || zero` lookup JS performs when gap-filling. -/
def lookupGroup {α : Type} (grouped : List (String × List α)) (k : String) : List α :=
  match grouped.find? (fun g => g.1 == k) with
  | some g => g.2
  | none => []

theorem find?_map_keys {β : Type} (ks : List String) (f : String → β)
    (proj : β → String) (hf : ∀ k, proj (f k) = k) (k : String) :
    (ks.map f).find? (fun b => proj b == k) = if k ∈ ks then some (f k) else none := by
  induction ks with
  | nil => simp
  | cons a t ih =>
    simp only [List.map_cons, List.find?_cons]
    by_cases hak : a = k
    · subst hak
      rw [hf]
      simp
    · have : (proj (f a) == k) = false := by
        rw [hf]
        exact beq_false_of_ne hak
      rw [this]
      simp only [ih, List.mem_cons]
      have : (k = a) = False := by
        apply eq_false
        intro hk
        exact hak hk.symm
      simp [this]

theorem lookupGroup_groupByKey {α : Type} (key : α → String) (l : List α) (k : String) :
    lookupGroup (groupByKey key l) k = l.filter (fun a => key a == k) := by
  unfold lookupGroup groupByKey
  rw [find?_map_keys _ _ Prod.fst (fun _ => rfl) k]
  split_ifs with hmem
  · rfl
  · rw [mem_sortedDedupKeys] at hmem
    have : l.filter (fun a => key a == k) = [] := by
      apply List.filter_eq_nil_iff.mpr
      intro a ha hka
      apply hmem
      rw [List.mem_map]
      exact ⟨a, ha, by simpa using hka⟩
    rw [this]

/-! ## The daily gap-fill loop

`while (cursor <= end) { key = formatDateForTimezone(cursor, tz); push(map[key] || zero); cursor.setDate(cursor.getDate() + 1); }`
The loop compares `Date` values, i.e. their instants. -/

def fillDaysAux {β : Type} (timezone : Int) (mk : String → β) :
    Nat → CivilDate → CivilDate → List β
  | 0, _, _ => []
  | fuel + 1, cursor, endD =>
    if timeValue (midnight cursor) ≤ timeValue (midnight endD) then
      mk (formatDateForTimezone (midnight cursor) timezone) ::
        fillDaysAux timezone mk fuel (nextDay cursor) endD
    else []

/-- The loop's trip count — the day span of the window — is computed up front
so the recursion is structural; the loop guard is still checked every
iteration, exactly as the `while` does. -/
def fillDays {β : Type} (timezone : Int) (mk : String → β) (cursor endD : CivilDate) :
    List β :=
  fillDaysAux timezone mk ((rataDie endD + 1) - rataDie cursor) cursor endD

theorem fillDaysAux_eq_range {β : Type} (timezone : Int) (mk : String → β) :
    ∀ (n : Nat) (cursor endD : CivilDate), (rataDie endD + 1) - rataDie cursor = n →
      fillDaysAux timezone mk n cursor endD
        = (List.range n).map (fun i => mk (dateKeyFmt (nextDayIter cursor i))) := by
  intro n
  induction n with
  | zero =>
    intro cursor endD hn
    rfl
  | succ n ih =>
    intro cursor endD hn
    simp only [fillDaysAux]
    rw [if_pos (by simp only [timeValue, midnight, todMs]; omega)]
    have hrec := ih (nextDay cursor) endD (by rw [rataDie_nextDay]; omega)
    rw [hrec, List.range_succ_eq_map]
    simp only [List.map_cons, List.map_map]
    constructor

theorem fillDays_eq_range {β : Type} (timezone : Int) (mk : String → β) :
    ∀ (n : Nat) (cursor endD : CivilDate), (rataDie endD + 1) - rataDie cursor = n →
      fillDays timezone mk cursor endD
        = (List.range n).map (fun i => mk (dateKeyFmt (nextDayIter cursor i))) := by
  intro n cursor endD hn
  rw [fillDays, hn]
  exact fillDaysAux_eq_range timezone mk n cursor endD hn

/-! ## Month cursor arithmetic (for the monthly gap-fill loop) -/

/-- The first day of the month with linear index `i`. -/
def monthFirst (i : Nat) : CivilDate :=
  ⟨i / 12, i % 12 + 1, 1, by omega, ⟨le_refl 1, daysInMonth_pos _ _⟩⟩

theorem CivilDate.ext {a b : CivilDate} (hy : a.year = b.year) (hm : a.month = b.month)
    (hd : a.day = b.day) : a = b := by
  cases a
  cases b
  simp only at hy hm hd
  subst hy
  subst hm
  subst hd
  rfl

theorem monthIdx_monthFirst (i : Nat) : monthIdx (monthFirst i) = i := by
  simp only [monthIdx, monthFirst]
  omega

theorem monthFirst_monthIdx (d : CivilDate) (hd1 : d.day = 1) :
    monthFirst (monthIdx d) = d := by
  have hm := d.hm
  apply CivilDate.ext <;> simp only [monthFirst, monthIdx] <;> omega

theorem rataDie_monthFirst_succ (i : Nat) :
    rataDie (monthFirst (i + 1))
      = rataDie (monthFirst i) + daysInMonth (i / 12) (i % 12 + 1) := by
  simp only [rataDie, monthFirst]
  by_cases h : i % 12 ≤ 10
  · have h1 : (i + 1) / 12 = i / 12 := by omega
    have h2 : (i + 1) % 12 = i % 12 + 1 := by omega
    rw [h1, h2]
    have hstep : daysBeforeMonth (i / 12) (i % 12 + 1 + 1)
        = daysBeforeMonth (i / 12) (i % 12 + 1) + daysInMonth (i / 12) (i % 12 + 1) :=
      daysBeforeMonth_succ _ _ (by omega)
    omega
  · have h11 : i % 12 = 11 := by omega
    have h1 : (i + 1) / 12 = i / 12 + 1 := by omega
    have h2 : (i + 1) % 12 = 0 := by omega
    rw [h1, h2, h11]
    rw [show (0 : Nat) + 1 = 1 from rfl, show (11 : Nat) + 1 = 12 from rfl]
    have hyr : daysBeforeYear (i / 12 + 1)
        = daysBeforeYear (i / 12) + daysInYear (i / 12) := rfl
    have hstep : daysBeforeMonth (i / 12) 13
        = daysBeforeMonth (i / 12) 12 + daysInMonth (i / 12) 12 :=
      daysBeforeMonth_succ _ _ (by omega)
    have hy13 : daysBeforeMonth (i / 12) 13 = daysInYear (i / 12) :=
      daysBeforeMonth_year _
    have hb1 : daysBeforeMonth (i / 12 + 1) 1 = 0 := rfl
    have hb0 : daysBeforeMonth (i / 12) 12 = daysBeforeMonth (i / 12) (11 + 1) := rfl
    omega

theorem rataDie_monthFirst_le (i j : Nat) (h : i ≤ j) :
    rataDie (monthFirst i) ≤ rataDie (monthFirst j) := by
  induction j with
  | zero =>
    have : i = 0 := by omega
    rw [this]
  | succ j ih =>
    by_cases hij : i = j + 1
    · rw [hij]
    · have hle := ih (by omega)
      rw [rataDie_monthFirst_succ]
      have := daysInMonth_pos (j / 12) (j % 12 + 1)
      omega

theorem rataDie_firstOfMonth_le (d : CivilDate) :
    rataDie (firstOfMonth d) ≤ rataDie d := by
  simp only [rataDie, firstOfMonth]
  omega

theorem rataDie_le_monthFirst_succ (d : CivilDate) :
    rataDie d < rataDie (monthFirst (monthIdx d + 1)) := by
  have hm := d.hm
  have hd := d.hd
  have hfirst : monthFirst (monthIdx d) = firstOfMonth d := by
    apply CivilDate.ext <;> simp only [monthFirst, firstOfMonth, monthIdx] <;> omega
  have hsucc := rataDie_monthFirst_succ (monthIdx d)
  have hdiv : monthIdx d / 12 = d.year := by simp only [monthIdx]; omega
  have hmod : monthIdx d % 12 + 1 = d.month := by simp only [monthIdx]; omega
  rw [hdiv, hmod] at hsucc
  have hfd : rataDie (firstOfMonth d) = rataDie d - (d.day - 1) := by
    simp only [rataDie, firstOfMonth]
    omega
  rw [hfirst, hfd] at hsucc
  have hrd : rataDie (firstOfMonth d) ≤ rataDie d := rataDie_firstOfMonth_le d
  rw [hfd] at hrd
  omega

/-- Month order reflects day-number order: a date in a strictly later month has
a strictly larger day number. -/
theorem rataDie_lt_of_monthIdx_lt (a b : CivilDate) (h : monthIdx a < monthIdx b) :
    rataDie a < rataDie b := by
  have h1 := rataDie_le_monthFirst_succ a
  have h2 := rataDie_monthFirst_le (monthIdx a + 1) (monthIdx b) (by omega)
  have h3 : monthFirst (monthIdx b) = firstOfMonth b := by
    have hm := b.hm
    apply CivilDate.ext <;> simp only [monthFirst, firstOfMonth, monthIdx] <;> omega
  have h4 := rataDie_firstOfMonth_le b
  rw [h3] at h2
  omega


/-! ## The monthly gap-fill loop

`current = new Date(startY, startM, 1)`; `endMonth = new Date(endY, endM + 1, 0, 23, 59, 59)`;
`while (current <= endMonth) { push(map[monthKey] || zero); current.setMonth(current.getMonth() + 1); }`
(The loop's template-literal month key renders the year unpadded; for the years
in scope, 1900-2100, that is the same string as the `%Y-%m` group key.) -/

theorem monthIdx_lastOfMonth (d : CivilDate) : monthIdx (lastOfMonth d) = monthIdx d := rfl

theorem monthIdx_eq_iff (a b : CivilDate) (h : monthIdx a = monthIdx b) :
    a.year = b.year ∧ a.month = b.month := by
  have ha := a.hm
  have hb := b.hm
  simp only [monthIdx] at h
  omega

theorem jsAddMonths_one_of_day1 (d : CivilDate) (h1 : d.day = 1) :
    jsAddMonths d 1 = monthFirst (monthIdx d + 1) := by
  have hm := d.hm
  unfold jsAddMonths
  simp only
  rw [Int.fdiv_eq_ediv _ (by omega)]
  have hcast : ((d.year : Int) * 12 + ((d.month : Int) - 1) + 1)
      = ((d.year * 12 + (d.month - 1) + 1 : Nat) : Int) := by omega
  unfold mkNorm
  rw [dif_pos (by rw [h1]; exact daysInMonth_pos _ _)]
  apply CivilDate.ext
  · simp only [monthFirst, monthIdx]
    omega
  · simp only [monthFirst, monthIdx]
    omega
  · simp only [monthFirst]
    omega

theorem timeValue_cond_of_monthIdx_le (cursor endD : CivilDate) (h1 : cursor.day = 1)
    (h : monthIdx cursor ≤ monthIdx endD) :
    timeValue (midnight cursor) ≤ timeValue ⟨lastOfMonth endD, 23, 59, 59, 0⟩ := by
  have hr : rataDie cursor ≤ rataDie (lastOfMonth endD) := by
    rcases Nat.lt_or_ge (monthIdx cursor) (monthIdx endD) with hlt | hge
    · have := rataDie_lt_of_monthIdx_lt cursor (lastOfMonth endD)
        (by rw [monthIdx_lastOfMonth]; omega)
      omega
    · have heq : monthIdx cursor = monthIdx endD := by omega
      obtain ⟨hy, hmn⟩ := monthIdx_eq_iff _ _ heq
      have hd := (lastOfMonth endD).hd
      simp only [rataDie, lastOfMonth, h1, hy, hmn]
      have := daysInMonth_pos endD.year endD.month
      omega
  simp only [timeValue, midnight, todMs]
  omega

theorem timeValue_cond_mt (cursor endD : CivilDate)
    (h : monthIdx endD < monthIdx cursor) :
    ¬ timeValue (midnight cursor) ≤ timeValue ⟨lastOfMonth endD, 23, 59, 59, 0⟩ := by
  have hlt := rataDie_lt_of_monthIdx_lt (lastOfMonth endD) cursor
    (by rw [monthIdx_lastOfMonth]; omega)
  simp only [timeValue, midnight, todMs]
  omega

def fillMonthsAux {β : Type} (mk : String → β) :
    Nat → CivilDate → CivilDate → List β
  | 0, _, _ => []
  | fuel + 1, cursor, endD =>
    if timeValue (midnight cursor) ≤ timeValue ⟨lastOfMonth endD, 23, 59, 59, 0⟩ then
      mk (monthKeyFmt cursor) :: fillMonthsAux mk fuel (jsAddMonths cursor 1) endD
    else []

/-- The monthly loop with its trip count — the month span of the window —
computed up front (each iteration advances the cursor by at least one month,
and the guard is still checked every iteration). -/
def fillMonths {β : Type} (mk : String → β) (cursor endD : CivilDate) : List β :=
  fillMonthsAux mk ((monthIdx endD + 1) - monthIdx cursor) cursor endD

theorem fillMonthsAux_eq_range {β : Type} (mk : String → β) :
    ∀ (n : Nat) (cursor endD : CivilDate), cursor.day = 1 →
      (monthIdx endD + 1) - monthIdx cursor = n →
      fillMonthsAux mk n cursor endD
        = (List.range n).map
            (fun i => mk (monthKeyFmt (monthFirst (monthIdx cursor + i)))) := by
  intro n
  induction n with
  | zero =>
    intro cursor endD h1 hn
    rfl
  | succ n ih =>
    intro cursor endD h1 hn
    have hle : monthIdx cursor ≤ monthIdx endD := by omega
    simp only [fillMonthsAux]
    rw [if_pos (timeValue_cond_of_monthIdx_le cursor endD h1 hle)]
    rw [jsAddMonths_one_of_day1 cursor h1]
    have hrec := ih (monthFirst (monthIdx cursor + 1)) endD rfl
      (by rw [monthIdx_monthFirst]; omega)
    rw [hrec, List.range_succ_eq_map]
    simp only [List.map_cons, List.map_map, monthIdx_monthFirst]
    congr 1
    · rw [Nat.add_zero, monthFirst_monthIdx cursor h1]
    · apply List.map_congr_left
      intro i _
      simp only [Function.comp_apply]
      have harith : monthIdx cursor + 1 + i = monthIdx cursor + (i + 1) := by omega
      rw [harith]

theorem fillMonths_eq_range {β : Type} (mk : String → β) :
    ∀ (n : Nat) (cursor endD : CivilDate), cursor.day = 1 →
      (monthIdx endD + 1) - monthIdx cursor = n →
      fillMonths mk cursor endD
        = (List.range n).map
            (fun i => mk (monthKeyFmt (monthFirst (monthIdx cursor + i)))) := by
  intro n cursor endD h1 hn
  rw [fillMonths, hn]
  exact fillMonthsAux_eq_range mk n cursor endD h1 hn


/-! ## `ExpenseService.getExpenseSeries` and the series shapes -/

/-- `Math.ceil(x / 86400000)` on the signed millisecond difference
(`(end - start) / msPerDay`). -/
def jsCeilDiv (a b : Int) : Int := -((-a).fdiv b)

structure SeriesBucket where
  period : String
  amount : ℚ
  count : Nat
deriving DecidableEq

structure SalesBucket where
  period : String
  revenue : ℚ
  transactions : Nat
deriving DecidableEq

/-- `getStoreTimezone(storeId)`: a constant (`Europe/Nicosia`, UTC+3 in
summer), modelled as its fixed offset in minutes. -/
def getStoreTimezone (storeId : Option String) : Int := 180

/-- The `$match` filter of `getExpenseSeries`: date window plus optional
store. -/
def expenseMatches (startDate endDate : DateTime) (storeId : Option String)
    (e : Expense) : Bool :=
  inWindow startDate endDate e.date && storeMatches storeId e.store_id

/-- `map[key] || { amount: 0, count: 0 }` over the day-grouped expenses. -/
def expenseBucketOf (grouped : List (String × List Expense)) (k : String) : SeriesBucket :=
  ⟨k, expSum (lookupGroup grouped k), (lookupGroup grouped k).length⟩

/-- `ExpenseService.getExpenseSeries(startDate, endDate, storeId)`:
daily buckets with gap filling when the window spans at most 31 days
(`Math.ceil((end - start) / dayMs) <= 31`), otherwise the raw monthly
aggregation (the monthly branch performs no gap filling). -/
def getExpenseSeries (startDate endDate : DateTime) (storeId : Option String)
    (expenses : List Expense) : List SeriesBucket :=
  let filtered := expenses.filter (expenseMatches startDate endDate storeId)
  let daysDiff := jsCeilDiv ((timeValue endDate : Int) - (timeValue startDate : Int)) 86400000
  if daysDiff ≤ 31 then
    let timezone := getStoreTimezone storeId
    let grouped := groupByKey (fun e => mongoDayKey e.date) filtered
    fillDays timezone (expenseBucketOf grouped) startDate.date endDate.date
  else
    (groupByKey (fun e => mongoMonthKey e.date) filtered).map
      (fun g => ⟨g.1, expSum g.2, g.2.length⟩)

/-! ## Percentage change and rounding -/

/-- JS `Math.round` (half-up, toward +∞ on ties). -/
def jsRound (x : ℚ) : Int := ⌊x + 1 / 2⌋

/-- `Math.round(x * 100) / 100` — round to two decimal places. -/
def jsRound2 (x : ℚ) : ℚ := (jsRound (x * 100) : ℚ) / 100

/-- `AnalyticsService.calculatePercentageChange(oldValue, newValue)`. -/
def calculatePercentageChange (oldValue newValue : ℚ) : ℚ :=
  if oldValue = 0 then (if newValue > 0 then 100 else 0)
  else jsRound2 ((newValue - oldValue) / oldValue * 100)


/-! ## Dashboard filters and the per-call-site transaction filters -/

structure DashboardFilters where
  dateRange : Option String
  paymentMethod : Option String
  orderSource : Option String
  status : Option String
  startDate : Option String
  endDate : Option String
  month : Option Nat
  year : Option Nat

/-- An absent dashboard filter object (`filters === undefined`). -/
def noFilters : Option DashboardFilters := none

/-- JS truthiness of an optional string (`undefined` and `''` are falsy). -/
def jsTruthyStr : Option String → Bool
  | some s => !(s == "")
  | none => false

/-- JS truthiness of an optional number (`undefined` and `0` are falsy). -/
def jsTruthyNat : Option Nat → Bool
  | some n => !(n == 0)
  | none => false

/-- The status predicate a `$match` stage ends up with. -/
inductive StatusFilter where
  | exact (s : String)
  | pendingOrCompleted
deriving DecidableEq

def statusMatches : StatusFilter → String → Bool
  | .exact s, st => st == s
  | .pendingOrCompleted, st => st == "completed" || st == "pending"

/-- `if (filters?.status && filters.status !== 'all') { status = filters.status }
else { status = { $in: ['completed', 'pending'] } }` — the shape used by the
dashboard's main filter, `getTopProducts`, `getSalesByMonth`,
`calculateGrowthRate` and `calculateVsPreviousPeriodMetrics` (each of which
also defaults to the `$in` when the whole filter object is absent). -/
def statusFilterStd (filters : Option DashboardFilters) : StatusFilter :=
  match filters with
  | some f =>
    if jsTruthyStr f.status ∧ f.status ≠ some "all" then .exact (f.status.getD "")
    else .pendingOrCompleted
  | none => .pendingOrCompleted

/-- The same `if/else` in `calculateVsYesterdayMetrics`, whose `else` branch for
an absent filter object sets `baseFilter.status = 'completed'` instead. -/
def statusFilterVsYesterday (filters : Option DashboardFilters) : StatusFilter :=
  match filters with
  | some f =>
    if jsTruthyStr f.status ∧ f.status ≠ some "all" then .exact (f.status.getD "")
    else .pendingOrCompleted
  | none => .exact "completed"

/-- `if (filters.paymentMethod && filters.paymentMethod !== 'all')` — `none`
means no payment-method restriction. -/
def paymentFilterOf (filters : Option DashboardFilters) : Option String :=
  match filters with
  | some f =>
    if jsTruthyStr f.paymentMethod ∧ f.paymentMethod ≠ some "all" then f.paymentMethod
    else none
  | none => none

def orderSourceFilterOf (filters : Option DashboardFilters) : Option String :=
  match filters with
  | some f =>
    if jsTruthyStr f.orderSource ∧ f.orderSource ≠ some "all" then f.orderSource
    else none
  | none => none

def paymentMatches (pf : Option String) (t : Transaction) : Bool :=
  match pf with
  | some p => t.payment_method == some p
  | none => true

def orderSourceMatches (sf : Option String) (t : Transaction) : Bool :=
  match sf with
  | some src => t.order_source == some src
  | none => true

/-! ## `getDateFilter` — resolving the primary window from the filters -/

/-- The `switch (filters.dateRange)` and custom-dates fallbacks (everything
after the month/year branch). -/
def getDateFilterRest (f : DashboardFilters) (timezone : Int) (now : DateTime) :
    Option DateRange :=
  if jsTruthyStr f.dateRange then
    match f.dateRange.getD "" with
    | "today" => some (getTodayRange timezone now)
    | "this_month" => some (getThisMonthRange timezone now)
    | "7d" => some (getLastNDaysRange 7 timezone now)
    | "30d" => some (getLastNDaysRange 30 timezone now)
    | "90d" => some (getLastNDaysRange 90 timezone now)
    | "1y" => some (getLastNDaysRange 365 timezone now)
    | _ => none
  else if jsTruthyStr f.startDate ∧ jsTruthyStr f.endDate then
    parseDateRange f.startDate f.endDate timezone
  else none

/-- `AnalyticsService.getDateFilter(filters, timezone)`: month/year (when no
explicit start/end dates) takes priority, with a thrown `getMonthYearRange`
caught and falling through to the remaining branches. -/
def getDateFilter (filters : Option DashboardFilters) (timezone : Int) (now : DateTime) :
    Option DateRange :=
  match filters with
  | none => none
  | some f =>
    if jsTruthyNat f.month ∧ jsTruthyNat f.year ∧
        ¬ jsTruthyStr f.startDate ∧ ¬ jsTruthyStr f.endDate then
      match getMonthYearRange (f.month.getD 0) (f.year.getD 0) timezone with
      | .ok r => some r
      | .error _ => getDateFilterRest f timezone now
    else getDateFilterRest f timezone now

/-! ## The transaction-side aggregations -/

/-- The dashboard's main `transactionFilter` (STEP 2): store, status, payment
method — note the main filter does not apply `orderSource` — plus the primary
window (STEP 2 applies the window separately; it is a parameter here). -/
def dashboardTxnMatches (storeId : Option String) (filters : Option DashboardFilters)
    (start end_ : DateTime) (t : Transaction) : Bool :=
  storeMatches storeId t.store_id &&
    statusMatches (statusFilterStd filters) t.status &&
    paymentMatches (paymentFilterOf filters) t &&
    inWindow start end_ t.created_at

/-- The `$match` of `getSalesAnalyticsByDateRange`: store, fixed
`{ $in: ['completed','pending'] }` status, window. -/
def salesRangeMatches (storeId : Option String) (start end_ : DateTime) (t : Transaction) : Bool :=
  storeMatches storeId t.store_id &&
    (t.status == "completed" || t.status == "pending") &&
    inWindow start end_ t.created_at

def salesBucketOf (grouped : List (String × List Transaction)) (k : String) : SalesBucket :=
  ⟨k, txnSum (lookupGroup grouped k), (lookupGroup grouped k).length⟩

/-- The `salesByPeriod` series of `getSalesAnalyticsByDateRange`: daily buckets
gap-filled when the window spans at most 31 days, else monthly buckets
gap-filled month by month. -/
def salesByPeriodOfRange (storeId : Option String) (startDate endDate : DateTime)
    (txns : List Transaction) : List SalesBucket :=
  let matched := txns.filter (salesRangeMatches storeId startDate endDate)
  let daysDiff := jsCeilDiv ((timeValue endDate : Int) - (timeValue startDate : Int)) 86400000
  let timezone := getStoreTimezone storeId
  if daysDiff ≤ 31 then
    fillDays timezone (salesBucketOf (groupByKey (fun t => mongoDayKey t.created_at) matched))
      startDate.date endDate.date
  else
    fillMonths (salesBucketOf (groupByKey (fun t => mongoMonthKey t.created_at) matched))
      (firstOfMonth startDate.date) endDate.date

structure SalesAnalytics where
  totalRevenue : ℚ
  totalTransactions : Nat
  averageTransactionValue : ℚ
  salesByPeriod : List SalesBucket

/-- `AnalyticsService.getSalesAnalyticsByDateRange` (the fields the dashboard
consumes; its auxiliary top-products and payment-breakdown lists are discarded
by `getDashboardMetrics` and not modelled). -/
def getSalesAnalyticsByDateRange (storeId : Option String) (startDate endDate : DateTime)
    (txns : List Transaction) : SalesAnalytics :=
  let matched := txns.filter (salesRangeMatches storeId startDate endDate)
  let revenue := txnSum matched
  let transactionCount := matched.length
  { totalRevenue := revenue,
    totalTransactions := transactionCount,
    averageTransactionValue :=
      if transactionCount > 0 then revenue / (transactionCount : ℚ) else 0,
    salesByPeriod := salesByPeriodOfRange storeId startDate endDate txns }


/-! ## `getSalesByPeriod` (named-period series) -/

/-- Mongo `$dateToString` with format `%Y-%m-%d %H:00`. -/
def mongoHourKey (t : DateTime) : String :=
  dateKeyFmt t.date ++ " " ++ pad2 t.hour ++ ":00"

/-- `AnalyticsService.getSalesByPeriod(storeId, period)`: the `switch (period)`
choosing range, key format and whether missing days are filled. -/
def getSalesByPeriod (storeId : Option String) (period : Option String)
    (timezone : Int) (now : DateTime) (txns : List Transaction) : List SalesBucket :=
  -- status is the fixed `{ $in: ['completed', 'pending'] }`
  let baseMatch := fun t => storeMatches storeId t.store_id &&
    (t.status == "completed" || t.status == "pending")
  let pick : (DateRange × (DateTime → String) × Bool) :=
    match period.getD "" with
    | "today" => (getTodayRange timezone now, fun t => mongoHourKey t, false)
    | "week" => (getLastNDaysRange 7 timezone now, fun t => mongoDayKey t, true)
    | "7d" => (getLastNDaysRange 7 timezone now, fun t => mongoDayKey t, true)
    | "month" => (getLastNDaysRange 30 timezone now, fun t => mongoDayKey t, true)
    | "30d" => (getLastNDaysRange 30 timezone now, fun t => mongoDayKey t, true)
    | "90d" => (getLastNDaysRange 90 timezone now, fun t => mongoDayKey t, true)
    | "1y" => (getLastNDaysRange 365 timezone now, fun t => mongoMonthKey t, false)
    | _ => (getLastNDaysRange 30 timezone now, fun t => mongoMonthKey t, false)
  let dateRange := pick.1
  let keyOf := pick.2.1
  let fillMissingDays := pick.2.2
  let matched := txns.filter (fun t => baseMatch t &&
    inWindow dateRange.start dateRange.end_ t.created_at)
  let grouped := groupByKey (fun t => keyOf t.created_at) matched
  let aggregated := grouped.map (fun g => SalesBucket.mk g.1 (txnSum g.2) g.2.length)
  if fillMissingDays then
    fillDays timezone (salesBucketOf grouped) dateRange.start.date dateRange.end_.date
  else aggregated

/-! ## `getTopProducts` -/

structure TopProduct where
  productId : String
  productName : String
  quantitySold : ℚ
  revenue : ℚ
deriving DecidableEq

/-- Descending insertion sort by a rational measure (`$sort: { revenue: -1 }`). -/
def insertDesc {α : Type} (f : α → ℚ) (x : α) : List α → List α
  | [] => [x]
  | a :: t => if f x ≥ f a then x :: a :: t else a :: insertDesc f x t

def sortDesc {α : Type} (f : α → ℚ) (l : List α) : List α := l.foldr (insertDesc f) []

/-- `getTopProducts`'s own `$match` filter (status, payment method, order
source, and the date filter when one resolves). -/
def topProductsMatches (storeId : Option String) (filters : Option DashboardFilters)
    (dateFilter : Option DateRange) (t : Transaction) : Bool :=
  storeMatches storeId t.store_id &&
    statusMatches (statusFilterStd filters) t.status &&
    paymentMatches (paymentFilterOf filters) t &&
    orderSourceMatches (orderSourceFilterOf filters) t &&
    (match dateFilter with
     | some r => inWindow r.start r.end_ t.created_at
     | none => true)

/-- `$unwind: '$items'` then `$group: { _id: '$items.product_id', ... }`,
`$sort: { revenue: -1 }`, `$limit: limit`. -/
def getTopProducts (storeId : Option String) (limit : Nat)
    (filters : Option DashboardFilters) (timezone : Int) (now : DateTime)
    (txns : List Transaction) : List TopProduct :=
  let dateFilter := getDateFilter filters timezone now
  let matched := txns.filter (topProductsMatches storeId filters dateFilter)
  let items := matched.flatMap (fun t => t.items)
  let grouped := groupByKey (fun it => it.product_id) items
  let rows := grouped.map (fun g =>
    TopProduct.mk g.1 ((g.2.head?.map (fun it => it.product_name)).getD "")
      ((g.2.map (fun it => it.quantity)).sum)
      ((g.2.map (fun it => it.quantity * it.unit_price)).sum))
  (sortDesc (fun p => p.revenue) rows).take limit

/-! ## `getSalesByMonth` (trailing 12 calendar months) -/

structure MonthSalesBucket where
  month : String
  sales : ℚ
  transactions : Nat
  onlineSales : ℚ
  inStoreSales : ℚ
deriving DecidableEq

/-- Amount counted as online (`$cond` on `order_source === 'online'`). -/
def onlineAmountOf (t : Transaction) : ℚ :=
  if t.order_source == some "online" then amountOf t else 0

/-- Amount counted as in-store (`order_source` is `'in-store'`, `null` or
missing). -/
def inStoreAmountOf (t : Transaction) : ℚ :=
  if t.order_source == some "in-store" || t.order_source == none then amountOf t else 0

/-- `getSalesByMonth`: a filter-independent trailing-12-months window
(`setMonth(getMonth() - 12); setDate(1); setHours(0,...)` through end of
today), grouped by local month, no gap filling. -/
def getSalesByMonth (storeId : Option String) (filters : Option DashboardFilters)
    (timezone : Int) (now : DateTime) (txns : List Transaction) : List MonthSalesBucket :=
  let twelveMonthsAgo := midnight (firstOfMonth (jsAddMonths now.date (-12)))
  let endDate := endOfDay now.date
  let matched := txns.filter (fun t =>
    storeMatches storeId t.store_id &&
      inWindow twelveMonthsAgo endDate t.created_at &&
      statusMatches (statusFilterStd filters) t.status &&
      paymentMatches (paymentFilterOf filters) t &&
      orderSourceMatches (orderSourceFilterOf filters) t)
  (groupByKey (fun t => mongoMonthKey t.created_at) matched).map (fun g =>
    MonthSalesBucket.mk g.1 (txnSum g.2) g.2.length
      ((g.2.map onlineAmountOf).sum) ((g.2.map inStoreAmountOf).sum))

/-! ## Expense stats and raw expense reads -/

structure ExpenseStats where
  totalExpenses : Nat
  totalAmount : ℚ

/-- `ExpenseService.getExpenseStats` reduced to the fields the dashboard
consumes (`totalExpenses` count and `totalAmount` sum); the category / payment
/ monthly / top-item breakdown tables are discarded by `getDashboardMetrics`.
On an aggregation error this function rethrows (`catch { throw error }`). -/
def getExpenseStats (storeId : Option String) (startDate endDate : Option DateTime)
    (expenses : List Expense) : ExpenseStats :=
  let matched := expenses.filter (fun e =>
    storeMatches storeId e.store_id &&
      (match startDate with | some s => timeValue s ≤ timeValue e.date | none => true) &&
      (match endDate with | some e2 => timeValue e.date ≤ timeValue e2 | none => true))
  ⟨matched.length, expSum matched⟩

/-- `ExpenseService.getExpensesByDateRange` (used by the day-over-day
comparison); the dashboard only sums the returned `amount`s. -/
def getExpensesByDateRange (startDate endDate : DateTime) (storeId : Option String)
    (expenses : List Expense) : List Expense :=
  expenses.filter (fun e =>
    inWindow startDate endDate e.date && storeMatches storeId e.store_id)


/-! ## Day-over-day comparison (`calculateVsYesterdayMetrics`) -/

structure VsYesterday where
  salesVsYesterday : ℚ
  expensesVsYesterday : ℚ
  profitVsYesterday : ℚ
  transactionsVsYesterday : ℚ
deriving DecidableEq

def vsYesterdayZero : VsYesterday := ⟨0, 0, 0, 0⟩

def vsYesterdayBaseMatches (storeId : Option String) (filters : Option DashboardFilters)
    (t : Transaction) : Bool :=
  storeMatches storeId t.store_id &&
    statusMatches (statusFilterVsYesterday filters) t.status &&
    paymentMatches (paymentFilterOf filters) t &&
    orderSourceMatches (orderSourceFilterOf filters) t

/-- `calculateVsYesterdayMetrics`: today vs yesterday (local calendar),
independent of the primary period. -/
def calculateVsYesterdayMetrics (storeId : Option String)
    (filters : Option DashboardFilters) (timezone : Int) (now : DateTime)
    (txns : List Transaction) (expenses : List Expense) : VsYesterday :=
  let todayRange := getTodayRange timezone now
  let yesterday := midnight (prevDay now.date)
  let yesterdayEnd := endOfDay (prevDay now.date)
  let todayTx := txns.filter (fun t => vsYesterdayBaseMatches storeId filters t &&
    inWindow todayRange.start todayRange.end_ t.created_at)
  let yesterdayTx := txns.filter (fun t => vsYesterdayBaseMatches storeId filters t &&
    inWindow yesterday yesterdayEnd t.created_at)
  let todaySalesTotal := txnSum todayTx
  let yesterdaySalesTotal := txnSum yesterdayTx
  let todayExpensesTotal :=
    expSum (getExpensesByDateRange todayRange.start todayRange.end_ storeId expenses)
  let yesterdayExpensesTotal :=
    expSum (getExpensesByDateRange yesterday yesterdayEnd storeId expenses)
  let todayProfit := todaySalesTotal - todayExpensesTotal
  let yesterdayProfit := yesterdaySalesTotal - yesterdayExpensesTotal
  { salesVsYesterday := calculatePercentageChange yesterdaySalesTotal todaySalesTotal,
    expensesVsYesterday := calculatePercentageChange yesterdayExpensesTotal todayExpensesTotal,
    profitVsYesterday := calculatePercentageChange yesterdayProfit todayProfit,
    transactionsVsYesterday :=
      calculatePercentageChange (yesterdayTx.length : ℚ) (todayTx.length : ℚ) }

/-! ## Period-over-period comparison and growth rate -/

/-- A field of the Date Time String Format (`YYYY-MM-DD`): unlike `Number`,
`new Date(dateString)`'s ISO parser admits only decimal digits in the year,
month and day fields, so a fragment contributes its value exactly when it is
all digits. -/
def isoFragN (s : String) : Option Nat :=
  let t := trimList s.data
  if t.isEmpty then some 0
  else if t.all Char.isDigit then some (digitsVal t)
  else none

/-- `new Date(dateString)` on a date-only ISO string: UTC midnight of the
written calendar date (Invalid Date — `none` — when the components are not a
real calendar date).  Modelled for the UTC deployment; no verified claim
exercises this branch. -/
def jsNewDate (str : String) : Option DateTime :=
  let parts := jsSplit str '-' 
  match parts[0]?.bind isoFragN, parts[1]?.bind isoFragN, parts[2]?.bind isoFragN with
  | some y, some m, some d =>
    if h : 1 ≤ m ∧ m ≤ 12 ∧ 1 ≤ d ∧ d ≤ daysInMonth y m ∧ parts.length = 3 then
      some (midnight ⟨y, m, d, by omega, by omega⟩)
    else none
  | _, _, _ => none

def getDaysFromDateRange (dateRange : String) : Nat :=
  match dateRange with
  | "7d" => 7
  | "30d" => 30
  | "90d" => 90
  | "1y" => 365
  | _ => 30

/-- The previous window of equal duration for a custom `[start, end]` given as
midnight instants: `previousEnd = start - 1ms`,
`previousStart = previousEnd - (end - start)`.  (When `end` precedes `start`
the source's window matches no documents; `none` models that.) -/
def previousWindowOfCustom (s e : DateTime) : Option DateRange :=
  if rataDie s.date ≤ rataDie e.date then
    let k := rataDie e.date - rataDie s.date
    some ⟨endOfDay (prevDayIter s.date (k + 1)), endOfDay (prevDay s.date)⟩
  else none

/-- The current/previous period pair of `calculateGrowthRate` (custom dates
first, then named ranges, else calendar-month default).  `none` models a
window that matches no documents (NaN dates from an unparseable string). -/
def resolveGrowthPeriods (filters : Option DashboardFilters) (timezone : Int)
    (now : DateTime) : Option (DateRange × DateRange) :=
  match filters with
  | some f =>
    if jsTruthyStr f.startDate ∧ jsTruthyStr f.endDate then
      match jsNewDate (f.startDate.getD ""), jsNewDate (f.endDate.getD "") with
      | some s, some e =>
        match previousWindowOfCustom s e with
        | some prev => some (⟨s, e⟩, prev)
        | none => none
      | _, _ => none
    else if jsTruthyStr f.dateRange then
      let days := getDaysFromDateRange (f.dateRange.getD "")
      let currentRange := getLastNDaysRange days timezone now
      let previousRange := getLastNDaysRange (days * 2) timezone now
      some (currentRange,
        ⟨previousRange.start, endOfDay (prevDayIter now.date (days + 1))⟩)
    else
      let monthRange := getThisMonthRange timezone now
      let lastMonth := jsAddMonths (firstOfMonth now.date) (-1)
      some (monthRange,
        ⟨midnight (firstOfMonth lastMonth), endOfDay (prevDay (firstOfMonth now.date))⟩)
  | none =>
    let monthRange := getThisMonthRange timezone now
    let lastMonth := jsAddMonths (firstOfMonth now.date) (-1)
    some (monthRange,
      ⟨midnight (firstOfMonth lastMonth), endOfDay (prevDay (firstOfMonth now.date))⟩)

def growthBaseMatches (storeId : Option String) (filters : Option DashboardFilters)
    (t : Transaction) : Bool :=
  storeMatches storeId t.store_id &&
    statusMatches (statusFilterStd filters) t.status &&
    paymentMatches (paymentFilterOf filters) t &&
    orderSourceMatches (orderSourceFilterOf filters) t

/-- `calculateGrowthRate`: the coarser period-over-period comparison kept for
backward compatibility (inline percentage formula, same zero-previous rule). -/
def calculateGrowthRate (storeId : Option String) (filters : Option DashboardFilters)
    (timezone : Int) (now : DateTime) (txns : List Transaction) : ℚ :=
  match resolveGrowthPeriods filters timezone now with
  | none => 0
  | some (cur, prev) =>
    let currentTotal := txnSum (txns.filter (fun t => growthBaseMatches storeId filters t &&
      inWindow cur.start cur.end_ t.created_at))
    let previousTotal := txnSum (txns.filter (fun t => growthBaseMatches storeId filters t &&
      inWindow prev.start prev.end_ t.created_at))
    if previousTotal = 0 then (if currentTotal > 0 then 100 else 0)
    else jsRound2 ((currentTotal - previousTotal) / previousTotal * 100)

structure VsPrevious where
  salesVsPreviousPeriod : ℚ
  expensesVsPreviousPeriod : ℚ
  profitVsPreviousPeriod : ℚ
  transactionsVsPreviousPeriod : ℚ
deriving DecidableEq

def vsPreviousZero : VsPrevious := ⟨0, 0, 0, 0⟩

/-- The previous-period window of `calculateVsPreviousPeriodMetrics` (only the
previous window is consumed downstream; the current totals are passed in as
arguments).  Branch order: month/year, custom dates, named range, default.  A
`getMonthYearRange` throw escapes as `.error` (caught by the function's own
`catch`); `.ok none` models a window matching no documents. -/
def resolveVsPreviousWindow (filters : Option DashboardFilters) (timezone : Int)
    (now : DateTime) : Except String (Option DateRange) :=
  match filters with
  | some f =>
    if jsTruthyNat f.month ∧ jsTruthyNat f.year then
      match getMonthYearRange (f.month.getD 0) (f.year.getD 0) timezone with
      | .error e => .error e
      | .ok _ =>
        let previousMonth := f.month.getD 0 - 1
        let pm := if previousMonth < 1 then 12 else previousMonth
        let py := if previousMonth < 1 then f.year.getD 0 - 1 else f.year.getD 0
        match getMonthYearRange pm py timezone with
        | .error e => .error e
        | .ok prev => .ok (some prev)
    else if jsTruthyStr f.startDate ∧ jsTruthyStr f.endDate then
      match jsNewDate (f.startDate.getD ""), jsNewDate (f.endDate.getD "") with
      | some s, some e => .ok (previousWindowOfCustom s e)
      | _, _ => .ok none
    else if jsTruthyStr f.dateRange then
      let days := getDaysFromDateRange (f.dateRange.getD "")
      let previousRange := getLastNDaysRange (days * 2) timezone now
      .ok (some ⟨previousRange.start, endOfDay (prevDayIter now.date (days + 1))⟩)
    else
      let lastMonth := jsAddMonths (firstOfMonth now.date) (-1)
      .ok (some ⟨midnight (firstOfMonth lastMonth), endOfDay (prevDay (firstOfMonth now.date))⟩)
  | none =>
    let lastMonth := jsAddMonths (firstOfMonth now.date) (-1)
    .ok (some ⟨midnight (firstOfMonth lastMonth), endOfDay (prevDay (firstOfMonth now.date))⟩)

/-- `calculateVsPreviousPeriodMetrics`: previous-period aggregates and the four
percentage deltas, all through `calculatePercentageChange`. -/
def calculateVsPreviousPeriodMetrics (storeId : Option String)
    (filters : Option DashboardFilters) (timezone : Int) (now : DateTime)
    (currentSales : ℚ) (currentTransactions : Nat) (currentExpenses : ℚ)
    (txns : List Transaction) (expenses : List Expense) : VsPrevious :=
  match resolveVsPreviousWindow filters timezone now with
  | .error _ => vsPreviousZero
  | .ok w =>
    let prevTx := txns.filter (fun t => growthBaseMatches storeId filters t &&
      (match w with
       | some r => inWindow r.start r.end_ t.created_at
       | none => false))
    let previousSales := txnSum prevTx
    let previousTransactions := prevTx.length
    let previousExpenses :=
      match w with
      | some r => (getExpenseStats storeId (some r.start) (some r.end_) expenses).totalAmount
      | none => 0
    let previousProfit := previousSales - previousExpenses
    let currentProfit := currentSales - currentExpenses
    { salesVsPreviousPeriod := calculatePercentageChange previousSales currentSales,
      expensesVsPreviousPeriod := calculatePercentageChange previousExpenses currentExpenses,
      profitVsPreviousPeriod := calculatePercentageChange previousProfit currentProfit,
      transactionsVsPreviousPeriod :=
        calculatePercentageChange (previousTransactions : ℚ) (currentTransactions : ℚ) }


/-! ## `getDashboardMetrics` assembly

The backing-store calls are threaded through a failure oracle
`fails : QueryId → Bool` (`true` = that aggregation throws).  A call the source
wraps in its own `try/catch` (or whose callee catches internally and returns a
default) degrades to its default; every other call propagates through the
function's outer `catch`, which rethrows. -/

inductive QueryId where
  | expenseStatsQ
  | expenseSeriesQ
  | monthlyExpenseStatsQ
  | productStatsQ
  | txnFacetQ
  | recentTxnsQ
  | topProductsQ
  | salesAnalyticsQ
  | salesByPeriodQ
  | salesByMonthQ
  | growthRateQ
  | vsYesterdayQ
  | vsPreviousQ
  | paymentAggQ
  | orderSourceAggQ
deriving DecidableEq

/-- Errors that escape `getDashboardMetrics` to its caller. -/
inductive DashError where
  | query (q : QueryId)
  | invalidPeriod (msg : String)
deriving DecidableEq

/-- A backing query with no surrounding `try/catch`: a failure propagates. -/
def runQ {α : Type} (fails : QueryId → Bool) (q : QueryId) (v : α) : Except DashError α :=
  if fails q then .error (.query q) else .ok v

/-- A backing query whose failure is swallowed into a default (an internal
`try/catch` in the callee, or a `catch` at the call site). -/
def softQ {α : Type} (fails : QueryId → Bool) (q : QueryId) (v : α) (default : α) : α :=
  if fails q then default else v

/-- The oracle under which no backing query fails. -/
def noFail : QueryId → Bool := fun _ => false

theorem except_bind_ok {ε α β : Type} (a : α) (f : α → Except ε β) :
    (Except.ok a : Except ε α) >>= f = f a := rfl

theorem except_bind_error {ε α β : Type} (e : ε) (f : α → Except ε β) :
    (Except.error e : Except ε α) >>= f = Except.error e := rfl

theorem except_map_ok {ε α β : Type} (f : α → β) (a : α) :
    f <$> (Except.ok a : Except ε α) = Except.ok (f a) := rfl

theorem except_map_error {ε α β : Type} (f : α → β) (e : ε) :
    f <$> (Except.error e : Except ε α) = Except.error e := rfl

theorem except_pure_eq {ε α : Type} (a : α) : (pure a : Except ε α) = Except.ok a := rfl

theorem except_throw_eq {ε α : Type} (e : ε) : (throw e : Except ε α) = Except.error e := rfl

/-- `Number(x) || 0` on an already numeric value. -/
def jsOr0 (q : ℚ) : ℚ := if q == 0 then 0 else q

structure RecentTxn where
  id : String
  totalAmount : Option ℚ
  paymentMethod : Option String
  createdAt : DateTime

structure DashboardMetrics where
  totalSales : ℚ
  totalTransactions : Nat
  averageTransactionValue : ℚ
  growthRate : ℚ
  salesVsPreviousPeriod : ℚ
  expensesVsPreviousPeriod : ℚ
  profitVsPreviousPeriod : ℚ
  transactionsVsPreviousPeriod : ℚ
  salesVsYesterday : ℚ
  expensesVsYesterday : ℚ
  profitVsYesterday : ℚ
  transactionsVsYesterday : ℚ
  totalProducts : Nat
  lowStockItems : Nat
  todaySales : ℚ
  monthlySales : ℚ
  totalExpenses : ℚ
  monthlyExpenses : ℚ
  netProfit : ℚ
  paymentMethods : List (String × ℚ)
  orderSources : List (String × ℚ)
  topProducts : List TopProduct
  recentTransactions : List RecentTxn
  salesByMonth : List MonthSalesBucket
  salesByPeriod : Option (List SalesBucket)
  expensesByPeriod : List SeriesBucket

/-- STEP 3's monthly range: the selected month/year (an invalid one throws,
uncaught at this call site) or the current calendar month. -/
def monthRangeResolve (filters : Option DashboardFilters) (timezone : Int)
    (now : DateTime) : Except String DateRange :=
  match filters with
  | some f =>
    if jsTruthyNat f.month ∧ jsTruthyNat f.year then
      getMonthYearRange (f.month.getD 0) (f.year.getD 0) timezone
    else .ok (getThisMonthRange timezone now)
  | none => .ok (getThisMonthRange timezone now)

/-- The resolved primary window (STEP 1): `getDateFilter`, else the trailing 30
days ending now (`setDate(getDate() - 30)` keeps the time of day). -/
def resolvePrimaryWindow (filters : Option DashboardFilters) (timezone : Int)
    (now : DateTime) : DateTime × DateTime :=
  match getDateFilter filters timezone now with
  | some r => (r.start, r.end_)
  | none => (⟨prevDayIter now.date 30, now.hour, now.minute, now.second, now.ms⟩, now)

/-- The `$group: { _id: '$payment_method' }` aggregation over the primary
filtered transactions (keys are the raw, nullable stored values). -/
def paymentMethodsAggregation (matched : List Transaction) : List (Option String × ℚ) :=
  ((matched.map (fun t => t.payment_method)).dedup).map
    (fun k => (k, txnSum (matched.filter (fun t => t.payment_method == k))))

def orderSourcesAggregation (matched : List Transaction) : List (Option String × ℚ) :=
  ((matched.map (fun t => t.order_source)).dedup).map
    (fun k => (k, txnSum (matched.filter (fun t => t.order_source == k))))

/-- `paymentMethodsData[normalized] = (paymentMethodsData[normalized] || 0) + (item.totalAmount || 0)`. -/
def upsertAdd (m : List (String × ℚ)) (k : String) (v : ℚ) : List (String × ℚ) :=
  if m.any (fun p => p.1 == k) then
    m.map (fun p => if p.1 == k then (p.1, p.2 + v) else p)
  else m ++ [(k, v)]

def buildPaymentMethodsData (rows : List (Option String × ℚ)) : List (String × ℚ) :=
  rows.foldl (fun acc row => upsertAdd acc (normalizePaymentMethod row.1) (jsOr0 row.2)) []

/-- `orderSourcesData[source] = item.totalAmount` (assignment, not
accumulation) with `item._id || 'in-store'`. -/
def upsertSet (m : List (String × ℚ)) (k : String) (v : ℚ) : List (String × ℚ) :=
  if m.any (fun p => p.1 == k) then
    m.map (fun p => if p.1 == k then (p.1, v) else p)
  else m ++ [(k, v)]

def orderSourceKey (k : Option String) : String :=
  match k with
  | some src => if src = "" then "in-store" else src
  | none => "in-store"

def buildOrderSourcesData (rows : List (Option String × ℚ)) : List (String × ℚ) :=
  rows.foldl (fun acc row => upsertSet acc (orderSourceKey row.1) row.2) []

/-- `Transaction.find(...).sort({ created_at: -1 }).limit(10)` projected to the
response shape. -/
def recentTransactionsOf (matched : List Transaction) : List RecentTxn :=
  ((sortDesc (fun t => (timeValue t.created_at : ℚ)) matched).take 10).map
    (fun t => ⟨t.id, t.total_amount, t.payment_method, t.created_at⟩)

/-- `AnalyticsService.getDashboardMetrics(storeId, filters)`.

The response cache (a pure pass-through for the value computed here) is not
modelled; `now` stands for the `new Date()` calls of one request. -/
def getDashboardMetrics (storeId : Option String) (filters : Option DashboardFilters)
    (now : DateTime) (data : StoreData) (fails : QueryId → Bool) :
    Except DashError DashboardMetrics := do
  let storeTimezone := getStoreTimezone storeId
  -- STEP 1: the primary window, resolved once
  let primaryDateFilter := getDateFilter filters storeTimezone now
  let primary := resolvePrimaryWindow filters storeTimezone now
  let primaryStartDate := primary.1
  let primaryEndDate := primary.2
  -- STEP 3: today and monthly ranges (`getMonthYearRange` may throw — uncaught here)
  let todayRange := getTodayRange storeTimezone now
  let monthRange : DateRange ←
    match monthRangeResolve filters storeTimezone now with
    | .ok r => pure r
    | .error e => throw (.invalidPeriod e)
  -- STEP 4: expenses over the same primary window
  let expenseStats ← runQ fails .expenseStatsQ
    (getExpenseStats storeId (some primaryStartDate) (some primaryEndDate) data.expenses)
  let expenseSeries := softQ fails .expenseSeriesQ
    (getExpenseSeries primaryStartDate primaryEndDate storeId data.expenses) []
  let monthlyExpenseStats ← runQ fails .monthlyExpenseStatsQ
    (getExpenseStats storeId (some monthRange.start) (some monthRange.end_) data.expenses)
  let totalExpenses := expenseStats.totalAmount
  -- the parallel aggregations
  let matchedPrimary := data.transactions.filter
    (dashboardTxnMatches storeId filters primaryStartDate primaryEndDate)
  let matchedToday := data.transactions.filter (fun t =>
    storeMatches storeId t.store_id &&
      statusMatches (statusFilterStd filters) t.status &&
      paymentMatches (paymentFilterOf filters) t &&
      inWindow todayRange.start todayRange.end_ t.created_at)
  let matchedMonthly := data.transactions.filter (fun t =>
    storeMatches storeId t.store_id &&
      statusMatches (statusFilterStd filters) t.status &&
      paymentMatches (paymentFilterOf filters) t &&
      inWindow monthRange.start monthRange.end_ t.created_at)
  let matchedProducts := data.products.filter (fun p => storeMatches storeId p.store_id)
  let productData ← runQ fails .productStatsQ
    (matchedProducts.length,
      (matchedProducts.filter (fun p => p.stock_quantity ≤ p.min_stock_level)).length)
  let facet ← runQ fails .txnFacetQ
    (txnSum matchedPrimary, matchedPrimary.length,
      txnSum matchedToday, txnSum matchedMonthly)
  let recentTransactions ← runQ fails .recentTxnsQ (recentTransactionsOf matchedPrimary)
  let topProductsData := softQ fails .topProductsQ
    (getTopProducts storeId 5 filters storeTimezone now data.transactions) []
  let totalSalesV := jsOr0 facet.1
  let totalTransactionsV := facet.2.1
  let todaySalesV := jsOr0 facet.2.2.1
  let monthlySalesV := jsOr0 facet.2.2.2
  let averageTransactionValue :=
    if totalTransactionsV > 0 then totalSalesV / (totalTransactionsV : ℚ) else 0
  let growthRate := softQ fails .growthRateQ
    (calculateGrowthRate storeId filters storeTimezone now data.transactions) 0
  let vsPreviousPeriodMetrics := softQ fails .vsPreviousQ
    (calculateVsPreviousPeriodMetrics storeId filters storeTimezone now
      totalSalesV totalTransactionsV totalExpenses data.transactions data.expenses)
    vsPreviousZero
  let vsYesterdayMetrics := softQ fails .vsYesterdayQ
    (calculateVsYesterdayMetrics storeId filters storeTimezone now
      data.transactions data.expenses) vsYesterdayZero
  -- salesByPeriod: primary range when one resolved, else named period, else none
  let salesByPeriodData : Option (List SalesBucket) ←
    if primaryDateFilter.isSome then do
      let salesAnalytics ← runQ fails .salesAnalyticsQ
        (getSalesAnalyticsByDateRange storeId primaryStartDate primaryEndDate
          data.transactions)
      pure (some salesAnalytics.salesByPeriod)
    else
      match filters with
      | some f =>
        if jsTruthyStr f.dateRange then
          pure (some (softQ fails .salesByPeriodQ
            (getSalesByPeriod storeId f.dateRange storeTimezone now data.transactions) []))
        else pure none
      | none => pure none
  let monthlyExpenses := monthlyExpenseStats.totalAmount
  let salesByMonthData := softQ fails .salesByMonthQ
    (getSalesByMonth storeId filters storeTimezone now data.transactions) []
  let paymentRows ← runQ fails .paymentAggQ (paymentMethodsAggregation matchedPrimary)
  let orderRows ← runQ fails .orderSourceAggQ (orderSourcesAggregation matchedPrimary)
  pure
    { totalSales := jsOr0 totalSalesV,
      totalTransactions := totalTransactionsV,
      averageTransactionValue := jsOr0 averageTransactionValue,
      growthRate := jsOr0 growthRate,
      salesVsPreviousPeriod := vsPreviousPeriodMetrics.salesVsPreviousPeriod,
      expensesVsPreviousPeriod := vsPreviousPeriodMetrics.expensesVsPreviousPeriod,
      profitVsPreviousPeriod := vsPreviousPeriodMetrics.profitVsPreviousPeriod,
      transactionsVsPreviousPeriod := vsPreviousPeriodMetrics.transactionsVsPreviousPeriod,
      salesVsYesterday := vsYesterdayMetrics.salesVsYesterday,
      expensesVsYesterday := vsYesterdayMetrics.expensesVsYesterday,
      profitVsYesterday := vsYesterdayMetrics.profitVsYesterday,
      transactionsVsYesterday := vsYesterdayMetrics.transactionsVsYesterday,
      totalProducts := productData.1,
      lowStockItems := productData.2,
      todaySales := todaySalesV,
      monthlySales := monthlySalesV,
      totalExpenses := jsOr0 totalExpenses,
      monthlyExpenses := jsOr0 monthlyExpenses,
      netProfit := totalSalesV - totalExpenses,
      paymentMethods := buildPaymentMethodsData paymentRows,
      orderSources := buildOrderSourcesData orderRows,
      topProducts := topProductsData,
      recentTransactions := recentTransactions,
      salesByMonth := salesByMonthData,
      salesByPeriod := salesByPeriodData,
      expensesByPeriod := expenseSeries }


/-! # Claim theorems -/

theorem jsOr0_eq (q : ℚ) : jsOr0 q = q := by
  unfold jsOr0
  split_ifs with h
  · exact (beq_iff_eq.mp h).symm
  · rfl

/-- **C3**: `calculatePercentageChange(previous, current)` returns 0 when
`previous = 0` and `current ≤ 0`, returns 100 when `previous = 0` and
`current > 0`, and otherwise returns `((current - previous) / previous) * 100`
rounded to 2 decimal places (a multiple of 1/100 within 1/200 of the exact
value), so `pctChange(100, 150) = 50` and `pctChange(200, 100) = -50`; the one
function is applied uniformly to the sales, expenses, profit and
transaction-count deltas of both the day-over-day and the period-over-period
comparison. -/
theorem calculatePercentageChange_spec :
    (∀ previous current : ℚ, previous = 0 → current ≤ 0 →
      calculatePercentageChange previous current = 0) ∧
    (∀ previous current : ℚ, previous = 0 → 0 < current →
      calculatePercentageChange previous current = 100) ∧
    (∀ previous current : ℚ, previous ≠ 0 →
      ∃ z : ℤ, calculatePercentageChange previous current = (z : ℚ) / 100 ∧
        |calculatePercentageChange previous current
          - (current - previous) / previous * 100| ≤ 1 / 200) ∧
    calculatePercentageChange 100 150 = 50 ∧
    calculatePercentageChange 200 100 = -50 ∧
    (∀ storeId filters timezone now txns expenses,
      ∃ ySales tSales yExp tExp yCnt tCnt : ℚ,
        calculateVsYesterdayMetrics storeId filters timezone now txns expenses
          = ⟨calculatePercentageChange ySales tSales,
             calculatePercentageChange yExp tExp,
             calculatePercentageChange (ySales - yExp) (tSales - tExp),
             calculatePercentageChange yCnt tCnt⟩) ∧
    (∀ storeId filters timezone now curS curE txns expenses, ∀ curT : Nat,
      (resolveVsPreviousWindow filters timezone now).isOk = true →
      ∃ pS pE : ℚ, ∃ pT : Nat,
        calculateVsPreviousPeriodMetrics storeId filters timezone now
            curS curT curE txns expenses
          = ⟨calculatePercentageChange pS curS,
             calculatePercentageChange pE curE,
             calculatePercentageChange (pS - pE) (curS - curE),
             calculatePercentageChange (pT : ℚ) (curT : ℚ)⟩) := by
  have hval : ∀ previous current : ℚ, previous ≠ 0 →
      calculatePercentageChange previous current
        = (⌊(current - previous) / previous * 100 * 100 + 1 / 2⌋ : ℚ) / 100 := by
    intro previous current hp
    unfold calculatePercentageChange jsRound2 jsRound
    rw [if_neg hp]
  have h50 : calculatePercentageChange 100 150 = 50 := by
    rw [hval 100 150 (by norm_num)]
    rw [show ((150 : ℚ) - 100) / 100 * 100 * 100 + 1 / 2 = 10001 / 2 by norm_num]
    rw [show ⌊(10001 / 2 : ℚ)⌋ = 5000 from Int.floor_eq_iff.mpr (by norm_num)]
    norm_num
  have hm50 : calculatePercentageChange 200 100 = -50 := by
    rw [hval 200 100 (by norm_num)]
    rw [show ((100 : ℚ) - 200) / 200 * 100 * 100 + 1 / 2 = -9999 / 2 by norm_num]
    rw [show ⌊(-9999 / 2 : ℚ)⌋ = -5000 from Int.floor_eq_iff.mpr (by norm_num)]
    norm_num
  refine ⟨?_, ?_, ?_, h50, hm50, ?_, ?_⟩
  · intro previous current hp hc
    unfold calculatePercentageChange
    rw [if_pos hp, if_neg (not_lt.mpr hc)]
  · intro previous current hp hc
    unfold calculatePercentageChange
    rw [if_pos hp, if_pos hc]
  · intro previous current hp
    refine ⟨jsRound ((current - previous) / previous * 100 * 100), ?_, ?_⟩
    · rw [hval _ _ hp]
      unfold jsRound
      norm_num
    · rw [hval _ _ hp]
      set x := (current - previous) / previous * 100 with hx
      have h1 : (⌊x * 100 + 1 / 2⌋ : ℚ) ≤ x * 100 + 1 / 2 := Int.floor_le _
      have h2 : x * 100 + 1 / 2 - 1 < (⌊x * 100 + 1 / 2⌋ : ℚ) := Int.sub_one_lt_floor _
      rw [abs_le]
      constructor
      · linarith
      · linarith
  · intro storeId filters timezone now txns expenses
    unfold calculateVsYesterdayMetrics
    exact ⟨_, _, _, _, _, _, rfl⟩
  · intro storeId filters timezone now curS curE txns expenses curT hok
    unfold calculateVsPreviousPeriodMetrics
    rcases hres : resolveVsPreviousWindow filters timezone now with e | w
    · rw [hres] at hok
      simp [Except.isOk, Except.toBool] at hok
    · exact ⟨_, _, _, rfl⟩

/-- Witness for C3 at concrete inputs (each hypothesis discharged at a
concrete point). -/
theorem calculatePercentageChange_spec_witness :
    (calculatePercentageChange 0 0 = 0 ∧ calculatePercentageChange 0 50 = 100 ∧
      (∃ z : ℤ, calculatePercentageChange 100 150 = (z : ℚ) / 100 ∧
        |calculatePercentageChange 100 150 - (150 - 100) / 100 * 100| ≤ 1 / 200)) ∧
    ∃ pS pE : ℚ, ∃ pT : Nat,
      calculateVsPreviousPeriodMetrics none noFilters 180
          (midnight ⟨2, 3, 4, by omega, by decide⟩) 10 3 4 [] []
        = ⟨calculatePercentageChange pS 10,
           calculatePercentageChange pE 4,
           calculatePercentageChange (pS - pE) (10 - 4),
           calculatePercentageChange (pT : ℚ) ((3 : Nat) : ℚ)⟩ :=
  ⟨⟨calculatePercentageChange_spec.1 0 0 rfl (le_refl 0),
    calculatePercentageChange_spec.2.1 0 50 rfl (by norm_num),
    calculatePercentageChange_spec.2.2.1 100 150 (by norm_num)⟩,
   calculatePercentageChange_spec.2.2.2.2.2.2 none noFilters 180
     (midnight ⟨2, 3, 4, by omega, by decide⟩) 10 4 [] [] 3 (by decide)⟩


/-- The thirteen alias keys of the payment-method `switch`. -/
def paymentAliasKeys : List String :=
  ["card", "pos", "bank_card", "debit_card", "credit_card",
   "transfer", "naira_transfer", "bank_transfer",
   "crypto", "crypto_payment",
   "cash_on_delivery", "cod", "cash"]

/-- **C9**: `normalizePaymentMethod` is idempotent and collapses aliases before
grouping: `card|pos|bank_card|debit_card|credit_card → pos`;
`transfer|naira_transfer|bank_transfer → naira_transfer`;
`crypto|crypto_payment → crypto_payment`; `cash_on_delivery|cod|cash → cash`;
any other string passes through trimmed and lower-cased. -/
theorem normalizePaymentMethod_claim :
    (∀ x : Option String,
      normalizePaymentMethod (some (normalizePaymentMethod x)) = normalizePaymentMethod x) ∧
    (normalizePaymentMethod (some "card") = "pos" ∧
     normalizePaymentMethod (some "pos") = "pos" ∧
     normalizePaymentMethod (some "bank_card") = "pos" ∧
     normalizePaymentMethod (some "debit_card") = "pos" ∧
     normalizePaymentMethod (some "credit_card") = "pos" ∧
     normalizePaymentMethod (some "transfer") = "naira_transfer" ∧
     normalizePaymentMethod (some "naira_transfer") = "naira_transfer" ∧
     normalizePaymentMethod (some "bank_transfer") = "naira_transfer" ∧
     normalizePaymentMethod (some "crypto") = "crypto_payment" ∧
     normalizePaymentMethod (some "crypto_payment") = "crypto_payment" ∧
     normalizePaymentMethod (some "cash_on_delivery") = "cash" ∧
     normalizePaymentMethod (some "cod") = "cash" ∧
     normalizePaymentMethod (some "cash") = "cash") ∧
    (∀ s : String, s ≠ "" → jsTrimLower s ≠ "" → jsTrimLower s ∉ paymentAliasKeys →
      normalizePaymentMethod (some s) = jsTrimLower s) := by
  refine ⟨normalizePaymentMethod_idempotent, by decide, ?_⟩
  intro s hs hkey hmem
  unfold normalizePaymentMethod
  have hmu : methodOrUnknown (some s) = s := by
    simp only [methodOrUnknown]
    rw [if_neg hs]
  rw [hmu]
  simp only [paymentAliasKeys, List.mem_cons, not_or, List.not_mem_nil] at hmem
  unfold paymentAliasSwitch
  rw [if_neg (by tauto), if_neg (by tauto), if_neg (by tauto), if_neg (by tauto),
    if_neg hkey]

/-- Witness for C9's pass-through conjunct at a concrete non-alias string. -/
theorem normalizePaymentMethod_claim_witness :
    normalizePaymentMethod (some " Wallet ") = jsTrimLower " Wallet " :=
  normalizePaymentMethod_claim.2.2 " Wallet " (by decide) (by decide) (by decide)

/-- **C10**: every result of `normalizePaymentMethod` — including for an
absent, empty or whitespace-only method — is a non-empty lower-case key; a
missing or empty method normalizes to `unknown`; and every key of the
payment-method breakdown map is such a result, so the map never contains an
empty key. -/
theorem normalizePaymentMethod_total_claim :
    (∀ x : Option String, normalizePaymentMethod x ≠ "") ∧
    (∀ x : Option String,
      jsToLowerCase (normalizePaymentMethod x) = normalizePaymentMethod x) ∧
    normalizePaymentMethod none = "unknown" ∧
    normalizePaymentMethod (some "") = "unknown" ∧
    (∀ s : String, (∀ c ∈ s.data, c.isWhitespace) →
      normalizePaymentMethod (some s) = "unknown") ∧
    (∀ rows : List (Option String × ℚ), ∀ k ∈ (buildPaymentMethodsData rows).map Prod.fst,
      (∃ x, k = normalizePaymentMethod x) ∧ k ≠ "") := by
  have hlower : ∀ x : Option String,
      jsToLowerCase (normalizePaymentMethod x) = normalizePaymentMethod x := by
    intro x
    unfold normalizePaymentMethod paymentAliasSwitch
    split_ifs with h1 h2 h3 h4 h5
    · decide
    · decide
    · decide
    · decide
    · decide
    · exact jsToLowerCase_jsTrimLower _
  have hws : ∀ s : String, (∀ c ∈ s.data, c.isWhitespace) →
      normalizePaymentMethod (some s) = "unknown" := by
    intro s hall
    by_cases hse : s = ""
    · rw [hse]; decide
    · unfold normalizePaymentMethod
      have hmu : methodOrUnknown (some s) = s := by
        simp only [methodOrUnknown]; rw [if_neg hse]
      rw [hmu]
      have htl : jsTrimLower s = "" := by
        unfold jsTrimLower jsToLowerCase jsTrim trimList
        have hd : s.data.dropWhile Char.isWhitespace = [] :=
          List.dropWhile_eq_nil_iff.mpr hall
        rw [hd]
        rfl
      rw [htl]
      decide
  refine ⟨normalizePaymentMethod_ne_empty, hlower, by decide, by decide, hws, ?_⟩
  have hkeys : ∀ (rows : List (Option String × ℚ)) (acc : List (String × ℚ)),
      (∀ k ∈ acc.map Prod.fst, ∃ x, k = normalizePaymentMethod x) →
      ∀ k ∈ (rows.foldl
          (fun acc row => upsertAdd acc (normalizePaymentMethod row.1) (jsOr0 row.2))
          acc).map Prod.fst,
        ∃ x, k = normalizePaymentMethod x := by
    intro rows
    induction rows with
    | nil => intro acc hacc k hk; exact hacc k hk
    | cons r t ih =>
      intro acc hacc k hk
      refine ih _ ?_ k hk
      intro k2 hk2
      simp only [upsertAdd] at hk2
      split_ifs at hk2 with hpresent
      · rw [List.map_map] at hk2
        have hfst : List.map (Prod.fst ∘ fun p : String × ℚ =>
            if (p.1 == normalizePaymentMethod r.1) = true then (p.1, p.2 + jsOr0 r.2) else p)
              acc
            = List.map Prod.fst acc := by
          apply List.map_congr_left
          intro p _
          by_cases hc : (p.1 == normalizePaymentMethod r.1) = true
          · simp only [Function.comp_apply, if_pos hc]
          · simp only [Function.comp_apply, if_neg hc]
        rw [hfst] at hk2
        exact hacc k2 hk2
      · rw [List.map_append] at hk2
        rcases List.mem_append.mp hk2 with h | h
        · exact hacc k2 h
        · simp only [List.map_cons, List.map_nil, List.mem_singleton] at h
          exact ⟨r.1, h⟩
  intro rows k hk
  have hnorm : ∃ x, k = normalizePaymentMethod x := by
    apply hkeys rows [] _ k hk
    intro k2 hk2
    simp at hk2
  refine ⟨hnorm, ?_⟩
  obtain ⟨x, hx⟩ := hnorm
  rw [hx]
  exact normalizePaymentMethod_ne_empty x

/-- Witness for C10 at a whitespace-only method and a concrete breakdown. -/
theorem normalizePaymentMethod_total_claim_witness :
    normalizePaymentMethod (some "   ") = "unknown" ∧
    (∀ k ∈ (buildPaymentMethodsData [(some "CARD ", 5), (none, 3)]).map Prod.fst,
      (∃ x, k = normalizePaymentMethod x) ∧ k ≠ "") :=
  ⟨normalizePaymentMethod_total_claim.2.2.2.2.1 "   " (by decide),
   normalizePaymentMethod_total_claim.2.2.2.2.2 [(some "CARD ", 5), (none, 3)]⟩


/-- **C8**: with a dashboard filter of `month = m`, `year = Y` (valid month,
`1901 ≤ Y ≤ 2100` so the previous month's range is constructible), the
previous period used for the period-over-period comparison resolves to the full
calendar month `12` of year `Y - 1` when `m = 1`, and to month `m - 1` of the
same year otherwise: first day 00:00:00.000 through last day 23:59:59.999. -/
theorem getMonthYearRange_ok (month year : Nat) (tz : Int)
    (h1 : 1 ≤ month ∧ month ≤ 12) (h2 : 1900 ≤ year ∧ year ≤ 2100) :
    ∃ r : DateRange, getMonthYearRange month year tz = .ok r ∧
      r.start.date.year = year ∧ r.start.date.month = month ∧
      r.start.date.day = 1 ∧ todMs r.start = 0 ∧
      r.end_.date.year = year ∧ r.end_.date.month = month ∧
      r.end_.date.day = daysInMonth year month ∧ todMs r.end_ = 86399999 := by
  unfold getMonthYearRange
  rw [dif_neg (by omega), dif_neg (by omega)]
  refine ⟨_, rfl, ?_⟩
  simp only [midnight, endOfDay, todMs]
  norm_num

theorem vsPrevious_month_wraparound (f : DashboardFilters) (tz : Int) (now : DateTime)
    (m y : Nat) (hfm : f.month = some m) (hfy : f.year = some y)
    (hm : 1 ≤ m ∧ m ≤ 12) (hy : 1901 ≤ y ∧ y ≤ 2100) :
    ∃ r : DateRange, resolveVsPreviousWindow (some f) tz now = .ok (some r) ∧
      r.start.date.year = (if m = 1 then y - 1 else y) ∧
      r.start.date.month = (if m = 1 then 12 else m - 1) ∧
      r.start.date.day = 1 ∧ todMs r.start = 0 ∧
      r.end_.date.year = (if m = 1 then y - 1 else y) ∧
      r.end_.date.month = (if m = 1 then 12 else m - 1) ∧
      r.end_.date.day = daysInMonth r.end_.date.year r.end_.date.month ∧
      todMs r.end_ = 86399999 := by
  simp only [resolveVsPreviousWindow]
  rw [hfm, hfy]
  have htruthy : (jsTruthyNat (some m) = true ∧ jsTruthyNat (some y) = true) := by
    constructor <;> simp [jsTruthyNat] <;> omega
  rw [if_pos htruthy]
  simp only [Option.getD]
  obtain ⟨r1, hr1, _⟩ := getMonthYearRange_ok m y tz (by omega) (by omega)
  rw [hr1]
  have hmeq : (if m - 1 < 1 then 12 else m - 1) = (if m = 1 then 12 else m - 1) := by
    split_ifs <;> omega
  have hyeq : (if m - 1 < 1 then y - 1 else y) = (if m = 1 then y - 1 else y) := by
    split_ifs <;> omega
  obtain ⟨r2, hr2, f1, f2, f3, f4, f5, f6, f7, f8⟩ :=
    getMonthYearRange_ok (if m - 1 < 1 then 12 else m - 1) (if m - 1 < 1 then y - 1 else y)
      tz (by split_ifs <;> omega) (by split_ifs <;> omega)
  rw [hr2]
  refine ⟨r2, rfl, ?_, ?_, f3, f4, ?_, ?_, ?_, f8⟩
  · rw [f1, hyeq]
  · rw [f2, hmeq]
  · rw [f5, hyeq]
  · rw [f6, hmeq]
  · rw [f7, f5, f6]

/-- Witness for C8 at `(month = 1, year = 2025)` (January wraps to December
2024). -/
theorem vsPrevious_month_wraparound_witness :
    ∃ r : DateRange,
      resolveVsPreviousWindow
          (some ⟨none, none, none, none, none, none, some 1, some 2025⟩) 180
          (midnight ⟨2, 3, 4, by omega, by decide⟩)
        = .ok (some r) ∧
      r.start.date.year = (if 1 = 1 then 2025 - 1 else 2025) ∧
      r.start.date.month = (if 1 = 1 then 12 else 1 - 1) ∧
      r.start.date.day = 1 ∧ todMs r.start = 0 ∧
      r.end_.date.year = (if 1 = 1 then 2025 - 1 else 2025) ∧
      r.end_.date.month = (if 1 = 1 then 12 else 1 - 1) ∧
      r.end_.date.day = daysInMonth r.end_.date.year r.end_.date.month ∧
      todMs r.end_ = 86399999 :=
  vsPrevious_month_wraparound ⟨none, none, none, none, none, none, some 1, some 2025⟩
    180 (midnight ⟨2, 3, 4, by omega, by decide⟩) 1 2025 rfl rfl
    (by omega) (by omega)


/-- The instant at which the store-local (UTC offset `tzOffsetMin` minutes)
calendar day containing instant `i` begins — per the spec, the `start` that
`todayRange(tz)` must return. -/
def specTodayStartInstant (tzOffsetMin : Int) (i : Int) : Int :=
  (i + tzOffsetMin * 60000) - (i + tzOffsetMin * 60000) % 86400000
    - tzOffsetMin * 60000

/-- `new Date()` at 2025-01-01T00:30:00 server-local time, on a UTC server. -/
def nowJan1 : DateTime :=
  ⟨⟨2025, 1, 1, by omega, by decide⟩, 0, 30, 0, 0⟩

/-- **C4** (code bug): `getTodayRange(timezone)` never reads its `timezone`
parameter — it builds the window from the server-local civil date — so its
result is not determined by the store timezone as the spec (and the function's
own doc comment) requires.  Concretely, on a UTC server at
2025-01-01T00:30:00Z with a UTC+3 store, the code's window starts at
2025-01-01T00:00:00Z, 10800000 ms (3 h) after the store-local midnight
2024-12-31T21:00:00Z the spec requires. -/
theorem getTodayRange_ignores_timezone :
    (∀ tz tz' : Int, ∀ now : DateTime, getTodayRange tz now = getTodayRange tz' now) ∧
    utcInstant (getTodayRange 180 nowJan1).start 0
      ≠ specTodayStartInstant 180 (utcInstant nowJan1 0) ∧
    utcInstant (getTodayRange 180 nowJan1).start 0
      - specTodayStartInstant 180 (utcInstant nowJan1 0) = 10800000 := by
  refine ⟨fun tz tz' now => rfl, ?_, ?_⟩ <;>
  · simp only [getTodayRange, utcInstant, specTodayStartInstant, nowJan1, midnight,
      timeValue, todMs]
    omega


/-! ## C7 support: characterizing the date-string parser -/

theorem string_length_eq_data (s : String) : s.length = s.data.length := rfl

theorem normalizeDateStr_idem (s : String) :
    normalizeDateStr (normalizeDateStr s) = normalizeDateStr s := by
  by_cases h1 : s.length > 10
  · have hT : normalizeDateStr s = ⟨s.data.take 10⟩ := by
      unfold normalizeDateStr
      rw [if_pos h1]
    rw [hT]
    unfold normalizeDateStr
    rw [if_neg (by rw [string_length_eq_data]; simp only [List.length_take]; omega)]
  · have hT : normalizeDateStr s = s := by
      unfold normalizeDateStr
      rw [if_neg h1]
    rw [hT, hT]

theorem dateParts_normalize (s : String) :
    dateParts (normalizeDateStr s) = dateParts s := by
  unfold dateParts
  rw [normalizeDateStr_idem]

theorem normalizeDateStr_ne_empty (s : String) (hs : s ≠ "") :
    normalizeDateStr s ≠ "" := by
  unfold normalizeDateStr
  split_ifs with h1
  · intro hcon
    have hlen : (String.mk (s.data.take 10)).length = 0 := by rw [hcon]; rfl
    rw [string_length_eq_data] at hlen h1
    simp only [List.length_take] at hlen
    omega
  · exact hs

theorem parseDateInTimezone_error (s : String) (tz : Int) (b : String)
    (h : dateStrMalformed s = true) :
    parseDateInTimezone (normalizeDateStr s) tz b = .error "Invalid date components" := by
  unfold dateStrMalformed at h
  simp only [parseDateInTimezone, dateParts_normalize]
  rw [dif_pos h]

/-- Spot checks of the `Number` model against JS: `Number('') = 0`,
`Number('+5') = 5`, `Number('1e1') = 10`, `Number('1.') = 1`,
`Number('.5') = 0.5` (truncating to `0`), `Number('0x1F') = 31`,
`Number('Infinity') = ∞`, and `NaN` for `'xx'`, `'1e'` and `'0x'`. -/
theorem jsNumber_examples :
    jsNumber "" = .val 0 0 ∧
    jsNumber " 15 " = .val 15 0 ∧
    jsNumber "+5" = .val 5 0 ∧
    jsNumber "1e1" = .val 1 1 ∧ (JsNum.val 1 1).toInteger = 10 ∧
    jsNumber "1." = .val 1 0 ∧
    jsNumber ".5" = .val 5 (-1) ∧ (JsNum.val 5 (-1)).toInteger = 0 ∧
    jsNumber "0x1F" = .val 31 0 ∧
    jsNumber "Infinity" = .inf false ∧
    jsNumber "xx" = .nan ∧
    jsNumber "1e" = .nan ∧
    jsNumber "0x" = .nan := by
  decide

theorem datePartsBad_val_nat (y m d : Nat) (hy1 : 1900 ≤ y) (hy2 : y ≤ 2100)
    (hm1 : 1 ≤ m) (hm2 : m ≤ 12) (hd1 : 1 ≤ d) (hd2 : d ≤ 31) :
    datePartsBad (.val (y : Int) 0, .val (m : Int) 0, .val (d : Int) 0) = false := by
  simp [datePartsBad, JsNum.isNaN, JsNum.ltNat, JsNum.gtNat]
  omega

theorem JsNum.toInteger_val_nat (n : Nat) :
    (JsNum.val (n : Int) 0).toInteger = (n : Int) := by
  simp [JsNum.toInteger]

theorem mkDateOfParts_eq_of (p : JsNum × JsNum × JsNum) (y m d : Nat)
    (hm1 : 1 ≤ m) (hm12 : m ≤ 12) (hd1 : 1 ≤ d) (hdm : d ≤ daysInMonth y m)
    (hp : p = (.val (y : Int) 0, .val (m : Int) 0, .val (d : Int) 0))
    (hb : datePartsBad p = false) :
    mkDateOfParts p hb = ⟨y, m, d, ⟨hm1, hm12⟩, ⟨hd1, hdm⟩⟩ := by
  subst hp
  have hy : ((JsNum.val ((y : Int)) 0).toInteger).toNat = y := by
    rw [JsNum.toInteger_val_nat]; omega
  have hm' : ((JsNum.val ((m : Int)) 0).toInteger).toNat = m := by
    rw [JsNum.toInteger_val_nat]; omega
  have hd' : ((JsNum.val ((d : Int)) 0).toInteger).toNat = d := by
    rw [JsNum.toInteger_val_nat]; omega
  refine CivilDate.ext ?_ ?_ ?_ <;>
    (simp only [mkDateOfParts]
     unfold mkNorm
     rw [dif_pos (by simp only [hy, hm', hd']; exact hdm)]
     first
       | exact hy
       | exact hm'
       | exact hd')

set_option maxHeartbeats 1600000 in
theorem parseDateInTimezone_ok (s : String) (y m d : Nat) (tz : Int) (b : String)
    (hp : dateParts s = (.val (y : Int) 0, .val (m : Int) 0, .val (d : Int) 0))
    (hr : 1900 ≤ y ∧ y ≤ 2100 ∧ 1 ≤ m ∧ m ≤ 12 ∧ 1 ≤ d ∧ d ≤ daysInMonth y m) :
    ∃ dt, parseDateInTimezone (normalizeDateStr s) tz b = .ok dt ∧
      dt.date.year = y ∧ dt.date.month = m ∧ dt.date.day = d ∧
      todMs dt = (if b = "start" then 0 else 86399999) := by
  have hdim := daysInMonth_le y m
  obtain ⟨hy1, hy2, hm1, hm12, hd1, hdm⟩ := hr
  have hbad : datePartsBad (dateParts s) = false := by
    rw [hp]
    exact datePartsBad_val_nat y m d hy1 hy2 hm1 hm12 hd1 (by omega)
  have hmk : ∀ hb0 : datePartsBad (dateParts s) = false,
      mkDateOfParts (dateParts s) hb0 = ⟨y, m, d, ⟨hm1, hm12⟩, ⟨hd1, hdm⟩⟩ :=
    fun hb0 => mkDateOfParts_eq_of (dateParts s) y m d hm1 hm12 hd1 hdm hp hb0
  simp only [parseDateInTimezone, dateParts_normalize]
  rw [dif_neg (by rw [hbad]; simp)]
  by_cases hb : b = "start"
  · rw [if_pos hb, if_pos hb, hmk]
    refine ⟨_, rfl, rfl, rfl, rfl, ?_⟩
    simp only [midnight, todMs]
  · rw [if_neg hb, if_neg hb, hmk]
    refine ⟨_, rfl, rfl, rfl, rfl, ?_⟩
    simp only [endOfDay, todMs]

/-- **C7**: `parseDateRange` never throws past its boundary (all failures
surface as `none`): it truncates strings longer than 10 characters to their
first 10 characters before parsing; when both strings coerce under JS
`Number` to in-range numeric components — plain digits or any other accepted
numeric form, such as a signed fragment — it parses them as local-calendar
start-of-day and end-of-day respectively; and it returns `none` whenever
either string is malformed — a missing or `NaN` (non-numeric) fragment, or an
out-of-range day, month or year — letting callers fall back to defaults. -/
theorem parseDateRange_claim :
    (∀ s e : String, ∀ tz : Int, 10 < s.length →
      parseDateRange (some s) (some e) tz
        = parseDateRange (some (normalizeDateStr s)) (some e) tz) ∧
    (∀ s e : String, ∀ tz : Int, 10 < e.length →
      parseDateRange (some s) (some e) tz
        = parseDateRange (some s) (some (normalizeDateStr e)) tz) ∧
    (∀ s e : String, ∀ tz : Int, ∀ y1 m1 d1 y2 m2 d2 : Nat,
      dateParts s = (.val (y1 : Int) 0, .val (m1 : Int) 0, .val (d1 : Int) 0) →
      dateParts e = (.val (y2 : Int) 0, .val (m2 : Int) 0, .val (d2 : Int) 0) →
      1900 ≤ y1 ∧ y1 ≤ 2100 ∧ 1 ≤ m1 ∧ m1 ≤ 12 ∧ 1 ≤ d1 ∧ d1 ≤ daysInMonth y1 m1 →
      1900 ≤ y2 ∧ y2 ≤ 2100 ∧ 1 ≤ m2 ∧ m2 ≤ 12 ∧ 1 ≤ d2 ∧ d2 ≤ daysInMonth y2 m2 →
      ∃ r : DateRange, parseDateRange (some s) (some e) tz = some r ∧
        r.start.date.year = y1 ∧ r.start.date.month = m1 ∧ r.start.date.day = d1 ∧
        todMs r.start = 0 ∧
        r.end_.date.year = y2 ∧ r.end_.date.month = m2 ∧ r.end_.date.day = d2 ∧
        todMs r.end_ = 86399999) ∧
    (∀ s e : String, ∀ tz : Int,
      dateStrMalformed s = true ∨ dateStrMalformed e = true →
      parseDateRange (some s) (some e) tz = none) := by
  refine ⟨?_, ?_, ?_, ?_⟩
  · intro s e tz hlen
    simp only [parseDateRange]
    have hs : s ≠ "" := by
      intro hc
      rw [hc] at hlen
      simp at hlen
    by_cases he : e = ""
    · rw [if_pos (Or.inr he), if_pos (Or.inr he)]
    · rw [if_neg (by tauto), if_neg (by push_neg; exact ⟨normalizeDateStr_ne_empty s hs, he⟩)]
      rw [normalizeDateStr_idem]
  · intro s e tz hlen
    simp only [parseDateRange]
    have he : e ≠ "" := by
      intro hc
      rw [hc] at hlen
      simp at hlen
    by_cases hs : s = ""
    · rw [if_pos (Or.inl hs), if_pos (Or.inl hs)]
    · rw [if_neg (by tauto), if_neg (by push_neg; exact ⟨hs, normalizeDateStr_ne_empty e he⟩)]
      rw [normalizeDateStr_idem]
  · intro s e tz y1 m1 d1 y2 m2 d2 hp1 hp2 hr1 hr2
    have hs : s ≠ "" := by
      intro hc
      rw [hc] at hp1
      rw [show dateParts "" = (.val 0 0, .nan, .nan) from rfl] at hp1
      simp at hp1
    have he : e ≠ "" := by
      intro hc
      rw [hc] at hp2
      rw [show dateParts "" = (.val 0 0, .nan, .nan) from rfl] at hp2
      simp at hp2
    simp only [parseDateRange]
    rw [if_neg (by tauto)]
    obtain ⟨dt1, hdt1, hf1⟩ := parseDateInTimezone_ok s y1 m1 d1 tz "start" hp1 hr1
    obtain ⟨dt2, hdt2, hf2⟩ := parseDateInTimezone_ok e y2 m2 d2 tz "end" hp2 hr2
    rw [hdt1, hdt2]
    refine ⟨⟨dt1, dt2⟩, rfl, hf1.1, hf1.2.1, hf1.2.2.1, ?_, hf2.1, hf2.2.1, hf2.2.2.1, ?_⟩
    · have := hf1.2.2.2
      simpa using this
    · have := hf2.2.2.2
      simpa using this
  · intro s e tz hbad
    simp only [parseDateRange]
    by_cases hguard : s = "" ∨ e = ""
    · rw [if_pos hguard]
    · rw [if_neg hguard]
      rcases hbad with hbad | hbad
      · rw [parseDateInTimezone_error s tz "start" hbad]
        rcases parseDateInTimezone (normalizeDateStr e) tz "end" with _ | _ <;> rfl
      · rw [parseDateInTimezone_error e tz "end" hbad]
        rcases parseDateInTimezone (normalizeDateStr s) tz "start" with _ | _ <;> rfl

/-- Witness for C7: a long ISO string is truncated; `2025-01-15 .. 2025-01-20`
parses to the expected local day boundaries; a signed day fragment (`+5`) is a
number to JS, so `2025-01-+5 .. 2025-01-20` parses to the Jan 5 – Jan 20
range; month 13 and a non-numeric day yield `none`. -/
theorem parseDateRange_claim_witness :
    parseDateRange (some "2025-01-15T08:30:00.000Z") (some "2025-01-20") 180
      = parseDateRange (some (normalizeDateStr "2025-01-15T08:30:00.000Z"))
          (some "2025-01-20") 180 ∧
    (∃ r : DateRange, parseDateRange (some "2025-01-15") (some "2025-01-20") 180 = some r ∧
      r.start.date.year = 2025 ∧ r.start.date.month = 1 ∧ r.start.date.day = 15 ∧
      todMs r.start = 0 ∧
      r.end_.date.year = 2025 ∧ r.end_.date.month = 1 ∧ r.end_.date.day = 20 ∧
      todMs r.end_ = 86399999) ∧
    (∃ r : DateRange, parseDateRange (some "2025-01-+5") (some "2025-01-20") 180 = some r ∧
      r.start.date.year = 2025 ∧ r.start.date.month = 1 ∧ r.start.date.day = 5 ∧
      todMs r.start = 0 ∧
      r.end_.date.year = 2025 ∧ r.end_.date.month = 1 ∧ r.end_.date.day = 20 ∧
      todMs r.end_ = 86399999) ∧
    parseDateRange (some "2025-13-01") (some "2025-01-20") 180 = none ∧
    parseDateRange (some "2025-01-15") (some "2025-01-xx") 180 = none :=
  ⟨parseDateRange_claim.1 "2025-01-15T08:30:00.000Z" "2025-01-20" 180 (by decide),
   parseDateRange_claim.2.2.1 "2025-01-15" "2025-01-20" 180 2025 1 15 2025 1 20
     (by decide) (by decide) (by decide) (by decide),
   parseDateRange_claim.2.2.1 "2025-01-+5" "2025-01-20" 180 2025 1 5 2025 1 20
     (by decide) (by decide) (by decide) (by decide),
   parseDateRange_claim.2.2.2 "2025-13-01" "2025-01-20" 180 (Or.inl (by decide)),
   parseDateRange_claim.2.2.2 "2025-01-15" "2025-01-xx" 180 (Or.inr (by decide))⟩

/-! ## C6 support: how each aggregation resolves its status filter -/

/-- A dashboard filter object whose only set field is `status: 'all'`. -/
def statusAllFilters : DashboardFilters :=
  ⟨none, none, none, some "all", none, none, none, none⟩

/-- A dashboard filter object selecting the single status `'cancelled'`. -/
def statusCancelledFilters : DashboardFilters :=
  ⟨none, none, none, some "cancelled", none, none, none, none⟩

/-- A cancelled transaction of store `s1`, inside the window below. -/
def cancelledTxn : Transaction :=
  ⟨"t1", "s1", [], some 100, some "cash", some "online", "cancelled",
    ⟨⟨2, 1, 10, by omega, by decide⟩, 12, 0, 0, 0⟩⟩

def c6WindowStart : DateTime := midnight ⟨2, 1, 1, by omega, by decide⟩

def c6WindowEnd : DateTime := endOfDay ⟨2, 1, 31, by omega, by decide⟩

/-- **C6** (counterexample): `status: 'all'` does not lift the status
restriction — the `else` branch still installs `{ $in: ['completed',
'pending'] }`, so a cancelled in-window, store-matching transaction is
excluded from the dashboard's point totals; and the day-over-day comparison
with an absent filter object restricts to `'completed'` alone, excluding
`'pending'`, instead of applying the `{pending, completed}` default. -/
theorem status_all_not_lifted_counterexample :
    statusFilterStd (some statusAllFilters) = .pendingOrCompleted ∧
    dashboardTxnMatches (some "s1") (some statusAllFilters)
      c6WindowStart c6WindowEnd cancelledTxn = false ∧
    storeMatches (some "s1") cancelledTxn.store_id = true ∧
    inWindow c6WindowStart c6WindowEnd cancelledTxn.created_at = true ∧
    statusFilterVsYesterday noFilters = .exact "completed" ∧
    statusMatches (statusFilterVsYesterday noFilters) "pending" = false := by
  refine ⟨by decide, ?_, by decide, ?_, by decide, by decide⟩
  · simp only [dashboardTxnMatches, statusMatches, statusFilterStd, statusAllFilters,
      cancelledTxn]
    decide
  · simp only [inWindow, c6WindowStart, c6WindowEnd, cancelledTxn, midnight, endOfDay,
      timeValue, todMs, rataDie]
    decide

/-- **C6** (amended): every dashboard transaction aggregation defaults its
status filter to `{pending, completed}` when the filter object is absent or
carries no status — except the day-over-day comparison, whose absent-filters
branch restricts to `'completed'` alone; an explicit single status (truthy and
not `'all'`) restricts the aggregation to exactly that status; and `'all'`
does not lift the restriction but re-installs the `{pending, completed}`
default.  The dashboard's main `$match` honours exactly this resolved
status predicate. -/
theorem dashboard_status_filter_claim :
    (statusFilterStd noFilters = .pendingOrCompleted ∧
     statusFilterVsYesterday noFilters = .exact "completed") ∧
    (∀ f : DashboardFilters, ∀ s : String, f.status = some s → s ≠ "" → s ≠ "all" →
      statusFilterStd (some f) = .exact s ∧
      statusFilterVsYesterday (some f) = .exact s) ∧
    (∀ f : DashboardFilters, f.status = some "all" →
      statusFilterStd (some f) = .pendingOrCompleted ∧
      statusFilterVsYesterday (some f) = .pendingOrCompleted) ∧
    (∀ st : String, statusMatches .pendingOrCompleted st
        = (st == "completed" || st == "pending")) ∧
    (∀ storeId filters start end_ t,
      dashboardTxnMatches storeId filters start end_ t = true →
      statusMatches (statusFilterStd filters) t.status = true) := by
  refine ⟨⟨rfl, rfl⟩, ?_, ?_, fun st => rfl, ?_⟩
  · intro f s hs hne hall
    have hcond : jsTruthyStr f.status ∧ f.status ≠ some "all" := by
      refine ⟨?_, ?_⟩
      · rw [hs]
        simpa [jsTruthyStr] using hne
      · rw [hs]
        simpa using hall
    refine ⟨?_, ?_⟩
    · simp only [statusFilterStd]
      rw [if_pos hcond, hs]
      rfl
    · simp only [statusFilterVsYesterday]
      rw [if_pos hcond, hs]
      rfl
  · intro f hs
    have hcond : ¬ (jsTruthyStr f.status ∧ f.status ≠ some "all") := by
      rw [hs]
      simp
    refine ⟨?_, ?_⟩
    · simp only [statusFilterStd]
      rw [if_neg hcond]
    · simp only [statusFilterVsYesterday]
      rw [if_neg hcond]
  · intro storeId filters start end_ t h
    simp only [dashboardTxnMatches, Bool.and_eq_true] at h
    exact h.1.1.2

/-- Witness for C6 (amended): a caller who explicitly supplies
`status: 'cancelled'` restricts every aggregation to exactly that status. -/
theorem dashboard_status_filter_claim_witness :
    statusFilterStd (some statusCancelledFilters) = .exact "cancelled" ∧
    statusFilterVsYesterday (some statusCancelledFilters) = .exact "cancelled" :=
  dashboard_status_filter_claim.2.1 statusCancelledFilters "cancelled"
    rfl (by decide) (by decide)

/-! ## C2: one primary window for sales, expenses and net profit -/

/-- **C2**: whatever the filter set, `getDashboardMetrics` resolves one primary
window up front, and every successful dashboard has `totalSales` and
`totalTransactions` aggregated over exactly that window's transaction filter,
`totalExpenses` queried over the same window, the expense series built over the
same window, and `netProfit = totalSales - totalExpenses`. -/
theorem dashboard_primary_period_consistency
    (storeId : Option String) (filters : Option DashboardFilters) (now : DateTime)
    (data : StoreData) (fails : QueryId → Bool) (m : DashboardMetrics)
    (hm : getDashboardMetrics storeId filters now data fails = .ok m) :
    m.netProfit = m.totalSales - m.totalExpenses ∧
    m.totalSales = txnSum (data.transactions.filter
      (dashboardTxnMatches storeId filters
        (resolvePrimaryWindow filters (getStoreTimezone storeId) now).1
        (resolvePrimaryWindow filters (getStoreTimezone storeId) now).2)) ∧
    m.totalTransactions = (data.transactions.filter
      (dashboardTxnMatches storeId filters
        (resolvePrimaryWindow filters (getStoreTimezone storeId) now).1
        (resolvePrimaryWindow filters (getStoreTimezone storeId) now).2)).length ∧
    m.totalExpenses = (getExpenseStats storeId
      (some (resolvePrimaryWindow filters (getStoreTimezone storeId) now).1)
      (some (resolvePrimaryWindow filters (getStoreTimezone storeId) now).2)
      data.expenses).totalAmount ∧
    (fails .expenseSeriesQ = false →
      m.expensesByPeriod = getExpenseSeries
        (resolvePrimaryWindow filters (getStoreTimezone storeId) now).1
        (resolvePrimaryWindow filters (getStoreTimezone storeId) now).2
        storeId data.expenses) := by
  rcases hmr : monthRangeResolve filters (getStoreTimezone storeId) now with r | e
  case error =>
    simp only [getDashboardMetrics, hmr, except_throw_eq, except_bind_error] at hm
    exact Except.noConfusion hm
  by_cases h1 : fails QueryId.expenseStatsQ = true
  · simp only [getDashboardMetrics, hmr, runQ, eq_true h1, if_true, except_pure_eq,
      except_bind_ok, except_bind_error] at hm
    exact Except.noConfusion hm
  by_cases h2 : fails QueryId.monthlyExpenseStatsQ = true
  · simp only [getDashboardMetrics, hmr, runQ, eq_false h1, eq_true h2, if_true, if_false,
      except_pure_eq, except_bind_ok, except_bind_error] at hm
    exact Except.noConfusion hm
  by_cases h3 : fails QueryId.productStatsQ = true
  · simp only [getDashboardMetrics, hmr, runQ, eq_false h1, eq_false h2, eq_true h3,
      if_true, if_false, except_pure_eq, except_bind_ok, except_bind_error] at hm
    exact Except.noConfusion hm
  by_cases h4 : fails QueryId.txnFacetQ = true
  · simp only [getDashboardMetrics, hmr, runQ, eq_false h1, eq_false h2, eq_false h3,
      eq_true h4, if_true, if_false, except_pure_eq, except_bind_ok,
      except_bind_error] at hm
    exact Except.noConfusion hm
  by_cases h5 : fails QueryId.recentTxnsQ = true
  · simp only [getDashboardMetrics, hmr, runQ, eq_false h1, eq_false h2, eq_false h3,
      eq_false h4, eq_true h5, if_true, if_false, except_pure_eq, except_bind_ok,
      except_bind_error] at hm
    exact Except.noConfusion hm
  rcases filters with _ | f
  · by_cases h6 : fails QueryId.paymentAggQ = true
    · simp only [getDashboardMetrics, hmr, runQ, getDateFilter, Option.isSome_none,
        Bool.false_eq_true, eq_false h1, eq_false h2, eq_false h3, eq_false h4,
        eq_false h5, eq_true h6, if_true, if_false, except_pure_eq, except_bind_ok,
        except_bind_error, except_map_ok, except_map_error] at hm
      exact Except.noConfusion hm
    by_cases h7 : fails QueryId.orderSourceAggQ = true
    · simp only [getDashboardMetrics, hmr, runQ, getDateFilter, Option.isSome_none,
        Bool.false_eq_true, eq_false h1, eq_false h2, eq_false h3, eq_false h4,
        eq_false h5, eq_false h6, eq_true h7, if_true, if_false, except_pure_eq,
        except_bind_ok, except_bind_error, except_map_ok, except_map_error] at hm
      exact Except.noConfusion hm
    simp only [getDashboardMetrics, hmr, runQ, getDateFilter, Option.isSome_none,
      Bool.false_eq_true, eq_false h1, eq_false h2, eq_false h3, eq_false h4,
      eq_false h5, eq_false h6, eq_false h7, if_true, if_false, except_pure_eq,
      except_bind_ok, except_bind_error, except_map_ok, except_map_error,
      Except.ok.injEq] at hm
    subst hm
    refine ⟨?_, ?_, ?_, ?_, ?_⟩
    · simp [jsOr0_eq]
    · simp [jsOr0_eq]
    · rfl
    · simp [jsOr0_eq]
    · intro hns
      simp [softQ, hns]
  · by_cases hpd : (getDateFilter (some f) (getStoreTimezone storeId) now).isSome = true
    · by_cases hsa : fails QueryId.salesAnalyticsQ = true
      · simp only [getDashboardMetrics, hmr, runQ, eq_false h1, eq_false h2, eq_false h3,
          eq_false h4, eq_false h5, eq_true hpd, eq_true hsa, if_true, if_false,
          except_pure_eq, except_bind_ok, except_bind_error, except_map_ok,
          except_map_error] at hm
        exact Except.noConfusion hm
      by_cases h6 : fails QueryId.paymentAggQ = true
      · simp only [getDashboardMetrics, hmr, runQ, eq_false h1, eq_false h2, eq_false h3,
          eq_false h4, eq_false h5, eq_true hpd, eq_false hsa, eq_true h6, if_true,
          if_false, except_pure_eq, except_bind_ok, except_bind_error, except_map_ok,
          except_map_error] at hm
        exact Except.noConfusion hm
      by_cases h7 : fails QueryId.orderSourceAggQ = true
      · simp only [getDashboardMetrics, hmr, runQ, eq_false h1, eq_false h2, eq_false h3,
          eq_false h4, eq_false h5, eq_true hpd, eq_false hsa, eq_false h6, eq_true h7,
          if_true, if_false, except_pure_eq, except_bind_ok, except_bind_error,
          except_map_ok, except_map_error] at hm
        exact Except.noConfusion hm
      simp only [getDashboardMetrics, hmr, runQ, eq_false h1, eq_false h2, eq_false h3,
        eq_false h4, eq_false h5, eq_true hpd, eq_false hsa, eq_false h6, eq_false h7,
        if_true, if_false, except_pure_eq, except_bind_ok, except_bind_error,
        except_map_ok, except_map_error, Except.ok.injEq] at hm
      subst hm
      refine ⟨?_, ?_, ?_, ?_, ?_⟩
      · simp [jsOr0_eq]
      · simp [jsOr0_eq]
      · rfl
      · simp [jsOr0_eq]
      · intro hns
        simp [softQ, hns]
    · by_cases hdr : jsTruthyStr f.dateRange = true
      · by_cases h6 : fails QueryId.paymentAggQ = true
        · simp only [getDashboardMetrics, hmr, runQ, eq_false h1, eq_false h2,
            eq_false h3, eq_false h4, eq_false h5, eq_false hpd, eq_true hdr,
            eq_true h6, if_true, if_false, except_pure_eq, except_bind_ok,
            except_bind_error, except_map_ok, except_map_error] at hm
          exact Except.noConfusion hm
        by_cases h7 : fails QueryId.orderSourceAggQ = true
        · simp only [getDashboardMetrics, hmr, runQ, eq_false h1, eq_false h2,
            eq_false h3, eq_false h4, eq_false h5, eq_false hpd, eq_true hdr,
            eq_false h6, eq_true h7, if_true, if_false, except_pure_eq,
            except_bind_ok, except_bind_error, except_map_ok, except_map_error] at hm
          exact Except.noConfusion hm
        simp only [getDashboardMetrics, hmr, runQ, eq_false h1, eq_false h2,
          eq_false h3, eq_false h4, eq_false h5, eq_false hpd, eq_true hdr,
          eq_false h6, eq_false h7, if_true, if_false, except_pure_eq,
          except_bind_ok, except_bind_error, except_map_ok, except_map_error,
          Except.ok.injEq] at hm
        subst hm
        refine ⟨?_, ?_, ?_, ?_, ?_⟩
        · simp [jsOr0_eq]
        · simp [jsOr0_eq]
        · rfl
        · simp [jsOr0_eq]
        · intro hns
          simp [softQ, hns]
      · by_cases h6 : fails QueryId.paymentAggQ = true
        · simp only [getDashboardMetrics, hmr, runQ, eq_false h1, eq_false h2,
            eq_false h3, eq_false h4, eq_false h5, eq_false hpd, eq_false hdr,
            eq_true h6, if_true, if_false, except_pure_eq, except_bind_ok,
            except_bind_error, except_map_ok, except_map_error] at hm
          exact Except.noConfusion hm
        by_cases h7 : fails QueryId.orderSourceAggQ = true
        · simp only [getDashboardMetrics, hmr, runQ, eq_false h1, eq_false h2,
            eq_false h3, eq_false h4, eq_false h5, eq_false hpd, eq_false hdr,
            eq_false h6, eq_true h7, if_true, if_false, except_pure_eq,
            except_bind_ok, except_bind_error, except_map_ok, except_map_error] at hm
          exact Except.noConfusion hm
        simp only [getDashboardMetrics, hmr, runQ, eq_false h1, eq_false h2,
          eq_false h3, eq_false h4, eq_false h5, eq_false hpd, eq_false hdr,
          eq_false h6, eq_false h7, if_true, if_false, except_pure_eq,
          except_bind_ok, except_bind_error, except_map_ok, except_map_error,
          Except.ok.injEq] at hm
        subst hm
        refine ⟨?_, ?_, ?_, ?_, ?_⟩
        · simp [jsOr0_eq]
        · simp [jsOr0_eq]
        · rfl
        · simp [jsOr0_eq]
        · intro hns
          simp [softQ, hns]

def c2Now : DateTime := ⟨⟨2, 3, 15, by omega, by decide⟩, 12, 0, 0, 0⟩

def c2Txn : Transaction :=
  ⟨"t1", "s1", [], some 40, some "cash", some "online", "completed",
    ⟨⟨2, 3, 10, by omega, by decide⟩, 9, 0, 0, 0⟩⟩

def c2Exp : Expense :=
  ⟨"e1", "s1", ⟨⟨2, 3, 12, by omega, by decide⟩, 10, 0, 0, 0⟩, "beans", 1, 15,
    "stock", "cash"⟩

def c2Data : StoreData := ⟨[c2Txn], [c2Exp], []⟩

/-- The dashboard the run below returns (the fallback is never taken). -/
def c2Metrics : DashboardMetrics :=
  ((getDashboardMetrics none none c2Now c2Data noFail).toOption).getD
    ⟨0, 0, 0, 0, 0, 0, 0, 0, 0, 0, 0, 0, 0, 0, 0, 0, 0, 0, 0, [], [], [], [], [],
      none, []⟩

/-- Witness for C2: a concrete successful dashboard run over one transaction
and one expense satisfies every consistency conjunct. -/
theorem dashboard_primary_period_consistency_witness :
    c2Metrics.netProfit = c2Metrics.totalSales - c2Metrics.totalExpenses ∧
    c2Metrics.totalSales = txnSum (c2Data.transactions.filter
      (dashboardTxnMatches none none
        (resolvePrimaryWindow none (getStoreTimezone none) c2Now).1
        (resolvePrimaryWindow none (getStoreTimezone none) c2Now).2)) ∧
    c2Metrics.totalTransactions = (c2Data.transactions.filter
      (dashboardTxnMatches none none
        (resolvePrimaryWindow none (getStoreTimezone none) c2Now).1
        (resolvePrimaryWindow none (getStoreTimezone none) c2Now).2)).length ∧
    c2Metrics.totalExpenses = (getExpenseStats none
      (some (resolvePrimaryWindow none (getStoreTimezone none) c2Now).1)
      (some (resolvePrimaryWindow none (getStoreTimezone none) c2Now).2)
      c2Data.expenses).totalAmount ∧
    (noFail .expenseSeriesQ = false →
      c2Metrics.expensesByPeriod = getExpenseSeries
        (resolvePrimaryWindow none (getStoreTimezone none) c2Now).1
        (resolvePrimaryWindow none (getStoreTimezone none) c2Now).2
        none c2Data.expenses) :=
  dashboard_primary_period_consistency none none c2Now c2Data noFail c2Metrics (by rfl)

/-! ## C1: which series are gapless, and which are not -/

/-- **C1** (amended): the *daily* branches are gapless and duplicate-free —
for a window of at most 31 days, `getExpenseSeries` and the sales series
return exactly one bucket per calendar day from `start` to `end` inclusive,
with a zero bucket for a day with no records — and the sales *monthly* branch
is likewise gap-filled month by month; but the expense *monthly* branch
(window over 31 days) performs no gap filling: its buckets are exactly the
distinct month keys of the matching expenses, so a month without expenses is
missing rather than zero. -/
theorem series_gapless_claim :
    (∀ (startDate endDate : DateTime) (storeId : Option String) (expenses : List Expense),
      jsCeilDiv ((timeValue endDate : Int) - (timeValue startDate : Int)) 86400000 ≤ 31 →
      getExpenseSeries startDate endDate storeId expenses
        = (List.range ((rataDie endDate.date + 1) - rataDie startDate.date)).map (fun i =>
            ⟨dateKeyFmt (nextDayIter startDate.date i),
             expSum ((expenses.filter (expenseMatches startDate endDate storeId)).filter
               (fun e => mongoDayKey e.date == dateKeyFmt (nextDayIter startDate.date i))),
             ((expenses.filter (expenseMatches startDate endDate storeId)).filter
               (fun e => mongoDayKey e.date == dateKeyFmt (nextDayIter startDate.date i))).length⟩)) ∧
    (∀ (startDate endDate : DateTime) (storeId : Option String) (expenses : List Expense),
      ¬ jsCeilDiv ((timeValue endDate : Int) - (timeValue startDate : Int)) 86400000 ≤ 31 →
      (getExpenseSeries startDate endDate storeId expenses).map (fun b => b.period)
        = sortedDedupKeys ((expenses.filter (expenseMatches startDate endDate storeId)).map
            (fun e => mongoMonthKey e.date))) ∧
    (∀ (startDate endDate : DateTime) (storeId : Option String) (txns : List Transaction),
      jsCeilDiv ((timeValue endDate : Int) - (timeValue startDate : Int)) 86400000 ≤ 31 →
      salesByPeriodOfRange storeId startDate endDate txns
        = (List.range ((rataDie endDate.date + 1) - rataDie startDate.date)).map (fun i =>
            ⟨dateKeyFmt (nextDayIter startDate.date i),
             txnSum ((txns.filter (salesRangeMatches storeId startDate endDate)).filter
               (fun t => mongoDayKey t.created_at == dateKeyFmt (nextDayIter startDate.date i))),
             ((txns.filter (salesRangeMatches storeId startDate endDate)).filter
               (fun t => mongoDayKey t.created_at == dateKeyFmt (nextDayIter startDate.date i))).length⟩)) ∧
    (∀ (startDate endDate : DateTime) (storeId : Option String) (txns : List Transaction),
      ¬ jsCeilDiv ((timeValue endDate : Int) - (timeValue startDate : Int)) 86400000 ≤ 31 →
      salesByPeriodOfRange storeId startDate endDate txns
        = (List.range ((monthIdx endDate.date + 1) - monthIdx startDate.date)).map (fun i =>
            ⟨monthKeyFmt (monthFirst (monthIdx startDate.date + i)),
             txnSum ((txns.filter (salesRangeMatches storeId startDate endDate)).filter
               (fun t => mongoMonthKey t.created_at
                 == monthKeyFmt (monthFirst (monthIdx startDate.date + i)))),
             ((txns.filter (salesRangeMatches storeId startDate endDate)).filter
               (fun t => mongoMonthKey t.created_at
                 == monthKeyFmt (monthFirst (monthIdx startDate.date + i)))).length⟩)) := by
  refine ⟨?_, ?_, ?_, ?_⟩
  · intro startDate endDate storeId expenses hdiff
    simp only [getExpenseSeries]
    rw [if_pos hdiff,
      fillDays_eq_range (getStoreTimezone storeId) _
        ((rataDie endDate.date + 1) - rataDie startDate.date)
        startDate.date endDate.date rfl]
    apply List.map_congr_left
    intro i _
    simp only [expenseBucketOf, lookupGroup_groupByKey]
  · intro startDate endDate storeId expenses hdiff
    simp only [getExpenseSeries]
    rw [if_neg hdiff]
    simp only [groupByKey, List.map_map]
    exact (List.map_congr_left fun k hk => rfl).trans (List.map_id _)
  · intro startDate endDate storeId txns hdiff
    simp only [salesByPeriodOfRange]
    rw [if_pos hdiff,
      fillDays_eq_range (getStoreTimezone storeId) _
        ((rataDie endDate.date + 1) - rataDie startDate.date)
        startDate.date endDate.date rfl]
    apply List.map_congr_left
    intro i _
    simp only [salesBucketOf, lookupGroup_groupByKey]
  · intro startDate endDate storeId txns hdiff
    simp only [salesByPeriodOfRange]
    rw [if_neg hdiff,
      fillMonths_eq_range _
        ((monthIdx endDate.date + 1) - monthIdx startDate.date)
        (firstOfMonth startDate.date) endDate.date rfl rfl]
    have hfm : monthIdx (firstOfMonth startDate.date) = monthIdx startDate.date := rfl
    simp only [hfm]
    apply List.map_congr_left
    intro i _
    simp only [salesBucketOf, lookupGroup_groupByKey]

def c1Start : DateTime := midnight ⟨2, 1, 1, by omega, by decide⟩

def c1End : DateTime := endOfDay ⟨2, 3, 31, by omega, by decide⟩

/-- One expense in January of year 2 (window: January through March). -/
def c1Exp : Expense :=
  ⟨"e1", "s1", ⟨⟨2, 1, 15, by omega, by decide⟩, 10, 0, 0, 0⟩, "rice", 1, 15,
    "stock", "cash"⟩

/-- **C1** (counterexample): over the 90-day window Jan 1 – Mar 31 the monthly
expense-series branch returns one bucket for the single recorded month and no
zero buckets for February or March — the series has gaps, against the claim
that every month between start and end appears exactly once. -/
theorem expense_monthly_series_gap_counterexample :
    jsCeilDiv ((timeValue c1End : Int) - (timeValue c1Start : Int)) 86400000 = 90 ∧
    (getExpenseSeries c1Start c1End none [c1Exp]).map (fun b => (b.period, b.count))
      = [("0002-01", 1)] ∧
    ¬ "0002-02" ∈ (getExpenseSeries c1Start c1End none [c1Exp]).map
        (fun b => b.period) := by
  refine ⟨by decide, by decide, by decide⟩

def c1WStart : DateTime := midnight ⟨2, 1, 1, by omega, by decide⟩

def c1WEnd : DateTime := endOfDay ⟨2, 1, 3, by omega, by decide⟩

/-- An expense on the middle day of the three-day witness window. -/
def c1WExp : Expense :=
  ⟨"e2", "s1", ⟨⟨2, 1, 2, by omega, by decide⟩, 10, 0, 0, 0⟩, "rice", 1, 7,
    "stock", "cash"⟩

/-- Witness for C1 (amended): a three-day window with one expense on the middle
day yields exactly three daily buckets, the two empty days counting zero
records (so their `expSum` of an empty match list is the zero bucket). -/
theorem series_gapless_claim_witness :
    getExpenseSeries c1WStart c1WEnd none [c1WExp]
      = (List.range ((rataDie c1WEnd.date + 1) - rataDie c1WStart.date)).map (fun i =>
          ⟨dateKeyFmt (nextDayIter c1WStart.date i),
           expSum (([c1WExp].filter (expenseMatches c1WStart c1WEnd none)).filter
             (fun e => mongoDayKey e.date == dateKeyFmt (nextDayIter c1WStart.date i))),
           (([c1WExp].filter (expenseMatches c1WStart c1WEnd none)).filter
             (fun e => mongoDayKey e.date == dateKeyFmt (nextDayIter c1WStart.date i))).length⟩) ∧
    (getExpenseSeries c1WStart c1WEnd none [c1WExp]).map (fun b => (b.period, b.count))
      = [("0002-01-01", 0), ("0002-01-02", 1), ("0002-01-03", 0)] :=
  ⟨series_gapless_claim.1 c1WStart c1WEnd none [c1WExp] (by decide), by decide⟩

/-! ## C5: which failures degrade and which propagate -/

def c5Now : DateTime := ⟨⟨2, 3, 15, by omega, by decide⟩, 12, 0, 0, 0⟩

def c5Data : StoreData := ⟨[], [], []⟩

/-- An oracle failing only the payment-method breakdown aggregation. -/
def c5Fails : QueryId → Bool := fun q => q == .paymentAggQ

/-- An oracle failing every query whose failure the service swallows: the
expense series, top products, named-period sales, sales by month, growth rate
and the two comparison blocks. -/
def c5SoftFails : QueryId → Bool := fun q =>
  q == .expenseSeriesQ || q == .topProductsQ || q == .salesByPeriodQ ||
    q == .salesByMonthQ || q == .growthRateQ || q == .vsYesterdayQ ||
    q == .vsPreviousQ

/-- **C5** (counterexample): the payment-methods breakdown is a sub-metric,
yet its aggregation has no surrounding catch — when it alone fails the whole
`getDashboardMetrics` call errors out instead of degrading that breakdown to
an empty default, though the same call succeeds when nothing fails. -/
theorem dashboard_hard_failure_counterexample :
    getDashboardMetrics none none c5Now c5Data c5Fails
      = .error (.query .paymentAggQ) ∧
    ((getDashboardMetrics none none c5Now c5Data noFail).toOption).isSome = true := by
  exact ⟨rfl, rfl⟩

/-- **C5** (amended): failures confined to the seven swallowed queries — the
expense series, top products, named-period sales, sales by month, growth rate,
day-over-day and period-over-period comparisons — always degrade to defaults
and the dashboard still returns; but the expense stats, monthly expense stats,
product stats, the transaction point totals, recent transactions, the
primary-range sales analytics, and the payment-method and order-source
breakdowns have no such boundary, so (given the month range resolves) a
failure there propagates to the caller. -/
theorem dashboard_failure_degradation
    (storeId : Option String) (filters : Option DashboardFilters) (now : DateTime)
    (data : StoreData) (fails : QueryId → Bool) (r : DateRange)
    (hmr : monthRangeResolve filters (getStoreTimezone storeId) now = .ok r)
    (h1 : fails .expenseStatsQ = false) (h2 : fails .monthlyExpenseStatsQ = false)
    (h3 : fails .productStatsQ = false) (h4 : fails .txnFacetQ = false)
    (h5 : fails .recentTxnsQ = false) (hsa : fails .salesAnalyticsQ = false)
    (h6 : fails .paymentAggQ = false) (h7 : fails .orderSourceAggQ = false) :
    ∃ m, getDashboardMetrics storeId filters now data fails = .ok m := by
  rcases filters with _ | f
  · simp only [getDashboardMetrics, hmr, runQ, getDateFilter, Option.isSome_none,
      Bool.false_eq_true, h1, h2, h3, h4, h5, h6, h7, if_true, if_false,
      except_pure_eq, except_bind_ok, except_bind_error, except_map_ok,
      except_map_error]
    exact ⟨_, rfl⟩
  · by_cases hpd : (getDateFilter (some f) (getStoreTimezone storeId) now).isSome = true
    · simp only [getDashboardMetrics, hmr, runQ, h1, h2, h3, h4, h5, hsa, h6, h7,
        Bool.false_eq_true, eq_true hpd, if_true, if_false, except_pure_eq,
        except_bind_ok, except_bind_error, except_map_ok, except_map_error]
      exact ⟨_, rfl⟩
    · by_cases hdr : jsTruthyStr f.dateRange = true
      · simp only [getDashboardMetrics, hmr, runQ, h1, h2, h3, h4, h5, h6, h7,
          Bool.false_eq_true, eq_false hpd, eq_true hdr, if_true, if_false,
          except_pure_eq, except_bind_ok, except_bind_error, except_map_ok,
          except_map_error]
        exact ⟨_, rfl⟩
      · simp only [getDashboardMetrics, hmr, runQ, h1, h2, h3, h4, h5, h6, h7,
          Bool.false_eq_true, eq_false hpd, eq_false hdr, if_true, if_false,
          except_pure_eq, except_bind_ok, except_bind_error, except_map_ok,
          except_map_error]
        exact ⟨_, rfl⟩

/-- Witness for C5 (amended): with every swallowed query failing at once, the
dashboard still returns a value. -/
theorem dashboard_failure_degradation_witness :
    ∃ m, getDashboardMetrics none none c5Now c5Data c5SoftFails = .ok m :=
  dashboard_failure_degradation none none c5Now c5Data c5SoftFails
    (getThisMonthRange (getStoreTimezone none) c5Now) rfl rfl rfl rfl rfl rfl rfl rfl rfl

end GreepMarket
